import Mathlib

/-!
Verification development for the NVMe-over-PCIe transport
(lib/nvme/nvme_pcie.c).

The C code is shallowly embedded: machine integers become Nat (all the
arithmetic below stays far from 2^64, except for the vtophys error
sentinel, which the C code defines as (uint64_t)-1 and which we model as
the literal 2^64 - 1), pointers become Nat addresses, the platform
virt-to-phys translation becomes an explicit function argument
vtophys : Nat -> Nat, and the callback-driven scatter iterator
(reset_sgl_fn / next_sge_fn) becomes a list of (virtual address, length)
pairs that is consumed one element per next_sge call, with an exhausted
list standing for a nonzero return code from next_sge_fn.

Stateful code (queue pair submit / poll / complete / abort) is embedded as
explicit state passing over a PcieQpairSt record.  The mutually recursive
call cycle in the C source (complete_tracker resubmits queued requests,
submit may enable the qpair, enabling aborts outstanding trackers, aborting
completes trackers) is made terminating with an explicit fuel argument that
decreases at every cross-call; with fuel larger than the recursion depth
the model follows the C control flow exactly, and the theorems below are
proved for every fuel value.
-/

/-- PAGE_SIZE of the NVMe PRP machinery: 4 KiB. -/
def PAGE_SIZE : Nat := 4096

/-- SPDK_VTOPHYS_ERROR, the error sentinel of spdk_vtophys: (uint64_t)-1. -/
def SPDK_VTOPHYS_ERROR : Nat := 18446744073709551615

/-- NVME_MAX_SGL_DESCRIPTORS: maximum descriptors in one SGL segment. -/
def NVME_MAX_SGL_DESCRIPTORS : Nat := 253

/-- NVME_MAX_PRP_LIST_ENTRIES: maximum PRP entries embedded in a tracker. -/
def NVME_MAX_PRP_LIST_ENTRIES : Nat := 506

/-- SPDK_NVME_SCT_GENERIC status code type. -/
def SPDK_NVME_SCT_GENERIC : Nat := 0

/-- SPDK_NVME_SC_INVALID_FIELD generic status code (0x02). -/
def SPDK_NVME_SC_INVALID_FIELD : Nat := 2

/-- SPDK_NVME_SC_ABORTED_BY_REQUEST generic status code (0x07). -/
def SPDK_NVME_SC_ABORTED_BY_REQUEST : Nat := 7

/-- SPDK_NVME_PSDT_PRP value of the cmd.psdt field selecting PRP transfers. -/
def SPDK_NVME_PSDT_PRP : Nat := 0

/-- SPDK_NVME_PSDT_SGL_MPTR_SGL value of the cmd.psdt field selecting SGLs. -/
def SPDK_NVME_PSDT_SGL_MPTR_SGL : Nat := 2

/-- SPDK_NVME_SGL_TYPE_DATA_BLOCK SGL descriptor type. -/
def SPDK_NVME_SGL_TYPE_DATA_BLOCK : Nat := 0

/-- SPDK_NVME_SGL_TYPE_LAST_SEGMENT SGL descriptor type (0x3). -/
def SPDK_NVME_SGL_TYPE_LAST_SEGMENT : Nat := 3

/-- Number of PRP segments computed by nvme_pcie_qpair_build_contig_request
(nvme_pcie.c lines 1264-1269):
nseg = payload_size >> log2(PAGE_SIZE); modulo = payload_size & (PAGE_SIZE-1);
unaligned = phys_addr & (PAGE_SIZE-1);
if (modulo or unaligned) nseg += 1 + ((modulo + unaligned - 1) >> log2(PAGE_SIZE)).
Shifts and masks by the power of two PAGE_SIZE are written as / and %. -/
def nvme_prp_nseg (payload_size phys_addr : Nat) : Nat :=
  let nseg := payload_size / PAGE_SIZE
  let modulo := payload_size % PAGE_SIZE
  let unaligned := phys_addr % PAGE_SIZE
  if modulo ≠ 0 ∨ unaligned ≠ 0 then
    nseg + (1 + (modulo + unaligned - 1) / PAGE_SIZE)
  else
    nseg

/-- Result of a PRP/SGL builder.  The badVtophys constructor stands for the
code path that calls nvme_pcie_fail_request_bad_vtophys (which manually
completes the tracker with (SPDK_NVME_SCT_GENERIC, SPDK_NVME_SC_INVALID_FIELD,
dnr=1)) and then returns -1; ok carries the values the builder wrote. -/
inductive BuildResult (α : Type) where
  | ok : α → BuildResult α
  | badVtophys : BuildResult α
deriving Repr, DecidableEq

/-- Command fields written by the contiguous-payload PRP builder, together
with the PRP list entries written into the tracker (prps is the written
prefix tr.u.prp[0 .. nseg-2] in order). -/
structure ContigOut where
  psdt : Nat
  prp1 : Nat
  prp2 : Nat
  mptr : Nat
  prps : List Nat
deriving Repr, DecidableEq

/-- The while loop of nvme_pcie_qpair_build_contig_request for nseg > 2
(lines 1286-1297): for cur_nseg = cur, cur+1, ... it translates
payload + cur_nseg * PAGE_SIZE - unaligned and stores the result at
tr.u.prp[cur_nseg - 1]; remaining counts the iterations left
(nseg - cur_nseg in the C code). -/
def nvme_pcie_contig_prp_loop (vtophys : Nat → Nat) (payload unaligned : Nat) :
    Nat → Nat → BuildResult (List Nat)
  | _cur, 0 => .ok []
  | cur, remaining + 1 =>
    let seg_addr := payload + cur * PAGE_SIZE - unaligned
    let phys_addr := vtophys seg_addr
    if phys_addr = SPDK_VTOPHYS_ERROR then
      .badVtophys
    else
      match nvme_pcie_contig_prp_loop vtophys payload unaligned (cur + 1) remaining with
      | .ok rest => .ok (phys_addr :: rest)
      | .badVtophys => .badVtophys

/-- nvme_pcie_qpair_build_contig_request (lines 1249-1301).  The request's
fields are passed directly: contig pointer, payload_offset, payload_size,
optional metadata pointer with md_offset, and the tracker's
prp_sgl_bus_addr.  Note the faithful reproduction of the source: the
translation used for prp2 in the nseg == 2 case is stored without being
checked against SPDK_VTOPHYS_ERROR. -/
def nvme_pcie_qpair_build_contig_request (vtophys : Nat → Nat)
    (contig payload_offset payload_size : Nat) (md : Option Nat) (md_offset : Nat)
    (prp_sgl_bus_addr : Nat) : BuildResult ContigOut :=
  let payload := contig + payload_offset
  let phys_addr := vtophys payload
  if phys_addr = SPDK_VTOPHYS_ERROR then
    .badVtophys
  else
    let nseg := nvme_prp_nseg payload_size phys_addr
    let unaligned := phys_addr % PAGE_SIZE
    let mptrResult : BuildResult Nat :=
      match md with
      | none => .ok 0
      | some m =>
        let mp := vtophys (m + md_offset)
        if mp = SPDK_VTOPHYS_ERROR then .badVtophys else .ok mp
    match mptrResult with
    | .badVtophys => .badVtophys
    | .ok mptr =>
      if nseg = 2 then
        .ok { psdt := SPDK_NVME_PSDT_PRP, prp1 := phys_addr,
              prp2 := vtophys (payload + PAGE_SIZE - unaligned), mptr := mptr, prps := [] }
      else if 2 < nseg then
        match nvme_pcie_contig_prp_loop vtophys payload unaligned 1 (nseg - 1) with
        | .badVtophys => .badVtophys
        | .ok prps =>
          .ok { psdt := SPDK_NVME_PSDT_PRP, prp1 := phys_addr,
                prp2 := prp_sgl_bus_addr, mptr := mptr, prps := prps }
      else
        .ok { psdt := SPDK_NVME_PSDT_PRP, prp1 := phys_addr, prp2 := 0,
              mptr := mptr, prps := [] }

/-- One 16-byte SGL descriptor (spdk_nvme_sgl_descriptor, unkeyed form). -/
structure SglDesc where
  sgl_type : Nat
  length : Nat
  address : Nat
  subtype : Nat
deriving Repr, DecidableEq

instance : Inhabited SglDesc := ⟨⟨0, 0, 0, 0⟩⟩

/-- Command SGL1 fields plus the descriptors written into the tracker by the
hardware-SGL builder. -/
structure HwSglOut where
  psdt : Nat
  sgl1 : SglDesc
  descs : List SglDesc
deriving Repr, DecidableEq

/-- The descriptor-building loop of nvme_pcie_qpair_build_hw_sgl_request
(lines 1332-1360): while remaining_transfer_len > 0, fail once nseg would
exceed NVME_MAX_SGL_DESCRIPTORS, pull the next scatter element (an empty
list models next_sge_fn returning nonzero), translate it, cap its length to
the remaining transfer length and emit a Data Block descriptor. -/
def nvme_pcie_hw_sgl_loop (vtophys : Nat → Nat) (sges : List (Nat × Nat))
    (remaining nseg : Nat) : BuildResult (List SglDesc) :=
  if remaining = 0 then
    .ok []
  else if NVME_MAX_SGL_DESCRIPTORS ≤ nseg then
    .badVtophys
  else
    match sges with
    | [] => .badVtophys
    | (virt_addr, len) :: rest =>
      let phys_addr := vtophys virt_addr
      if phys_addr = SPDK_VTOPHYS_ERROR then
        .badVtophys
      else
        let length := min remaining len
        match nvme_pcie_hw_sgl_loop vtophys rest (remaining - length) (nseg + 1) with
        | .ok descs =>
          .ok ({ sgl_type := SPDK_NVME_SGL_TYPE_DATA_BLOCK, length := length,
                 address := phys_addr, subtype := 0 } :: descs)
        | .badVtophys => .badVtophys

/-- nvme_pcie_qpair_build_hw_sgl_request (lines 1306-1380).  Runs the
descriptor loop starting from nseg = 0 and remaining = payload_size; on
success, if exactly one descriptor was produced it is inlined into
cmd.sgl1 as a Data Block, otherwise cmd.sgl1 becomes a Last Segment
descriptor pointing at the tracker's descriptor area with length
nseg * 16 bytes. -/
def nvme_pcie_qpair_build_hw_sgl_request (vtophys : Nat → Nat)
    (sges : List (Nat × Nat)) (payload_size : Nat) (prp_sgl_bus_addr : Nat) :
    BuildResult HwSglOut :=
  match nvme_pcie_hw_sgl_loop vtophys sges payload_size 0 with
  | .badVtophys => .badVtophys
  | .ok descs =>
    if descs.length = 1 then
      .ok { psdt := SPDK_NVME_PSDT_SGL_MPTR_SGL,
            sgl1 := { sgl_type := SPDK_NVME_SGL_TYPE_DATA_BLOCK,
                      length := (descs.headD default).length,
                      address := (descs.headD default).address,
                      subtype := 0 },
            descs := descs }
    else
      .ok { psdt := SPDK_NVME_PSDT_SGL_MPTR_SGL,
            sgl1 := { sgl_type := SPDK_NVME_SGL_TYPE_LAST_SEGMENT,
                      length := descs.length * 16,
                      address := prp_sgl_bus_addr,
                      subtype := 0 },
            descs := descs }

/-- Accumulator of nvme_pcie_qpair_build_prps_sgl_request: the local
variables total_nseg, last_nseg, sge_count and the saved prp2, the command
fields it writes, and the tracker PRP array tr.u.prp (a fixed array of
NVME_MAX_PRP_LIST_ENTRIES entries, modelled as a list updated in place). -/
structure PrpsSglAcc where
  cmd_psdt : Nat
  cmd_prp1 : Nat
  cmd_prp2 : Nat
  prp2 : Nat
  total_nseg : Nat
  last_nseg : Nat
  sge_count : Nat
  prp : List Nat
deriving Repr, DecidableEq

/-- The inner while loop of nvme_pcie_qpair_build_prps_sgl_request
(lines 1462-1471): while cur_nseg < nseg it writes tr.u.prp entries
(duplicating prp2 into entry 0 whenever prp2 is nonzero, exactly as the
source does) and increments last_nseg and cur_nseg; count is the number of
iterations left (nseg - cur_nseg). -/
def nvme_pcie_prps_fill (phys_addr prp2 : Nat) :
    Nat → Nat → Nat → List Nat → Nat × List Nat
  | 0, _cur, last_nseg, prp => (last_nseg, prp)
  | count + 1, cur_nseg, last_nseg, prp =>
    let prp :=
      if prp2 ≠ 0 then
        (prp.set 0 prp2).set (last_nseg + 1) (phys_addr + cur_nseg * PAGE_SIZE)
      else
        prp.set last_nseg (phys_addr + cur_nseg * PAGE_SIZE)
    nvme_pcie_prps_fill phys_addr prp2 count (cur_nseg + 1) (last_nseg + 1) prp

/-- The outer while loop of nvme_pcie_qpair_build_prps_sgl_request
(lines 1408-1473).  Each iteration pulls the next scatter element, checks
the PRP compatibility conditions (4-byte aligned start; a segment shorter
than the remaining transfer must end on a page boundary), computes the
per-segment nseg exactly as the contiguous builder does, and packs prp1,
prp2 and the tracker PRP list. -/
def nvme_pcie_prps_sgl_loop (vtophys : Nat → Nat) (prp_sgl_bus_addr : Nat)
    (sges : List (Nat × Nat)) (remaining : Nat) (acc : PrpsSglAcc) :
    BuildResult PrpsSglAcc :=
  if remaining = 0 then
    .ok acc
  else
    match sges with
    | [] => .badVtophys
    | (virt_addr, length) :: rest =>
      let phys_addr := vtophys virt_addr
      if phys_addr = SPDK_VTOPHYS_ERROR then
        .badVtophys
      else if phys_addr % 4 ≠ 0 ∨
              (length < remaining ∧ (phys_addr + length) % PAGE_SIZE ≠ 0) then
        .badVtophys
      else
        let data_transferred := min remaining length
        let nseg := nvme_prp_nseg data_transferred phys_addr
        let unaligned := phys_addr % PAGE_SIZE
        let firstSeg := acc.total_nseg = 0
        let acc := if firstSeg then
            { acc with cmd_psdt := SPDK_NVME_PSDT_PRP, cmd_prp1 := phys_addr }
          else acc
        let phys_addr := if firstSeg then phys_addr - unaligned else phys_addr
        let acc := { acc with total_nseg := acc.total_nseg + nseg,
                              sge_count := acc.sge_count + 1 }
        let remaining := remaining - data_transferred
        let acc :=
          if acc.total_nseg = 2 then
            let p2 :=
              if acc.sge_count = 1 then phys_addr + PAGE_SIZE
              else if acc.sge_count = 2 then phys_addr
              else acc.cmd_prp2
            { acc with cmd_prp2 := p2, prp2 := p2 }
          else if 2 < acc.total_nseg then
            let cur_nseg := if acc.sge_count = 1 then 1 else 0
            let acc := { acc with cmd_prp2 := prp_sgl_bus_addr }
            let fill := nvme_pcie_prps_fill phys_addr acc.prp2 (nseg - cur_nseg)
                          cur_nseg acc.last_nseg acc.prp
            { acc with last_nseg := fill.1, prp := fill.2 }
          else acc
        nvme_pcie_prps_sgl_loop vtophys prp_sgl_bus_addr rest remaining acc

/-- nvme_pcie_qpair_build_prps_sgl_request (lines 1386-1476): runs the loop
from a zeroed accumulator (the request command is zero-initialised by the
request pool and tr.u.prp starts zeroed) with remaining = payload_size. -/
def nvme_pcie_qpair_build_prps_sgl_request (vtophys : Nat → Nat)
    (sges : List (Nat × Nat)) (payload_size : Nat) (prp_sgl_bus_addr : Nat) :
    BuildResult PrpsSglAcc :=
  nvme_pcie_prps_sgl_loop vtophys prp_sgl_bus_addr sges payload_size
    { cmd_psdt := 0, cmd_prp1 := 0, cmd_prp2 := 0, prp2 := 0, total_nseg := 0,
      last_nseg := 0, sge_count := 0,
      prp := List.replicate NVME_MAX_PRP_LIST_ENTRIES 0 }

/-- Controller-memory-buffer allocator state: the fields cmb_size and
cmb_current_offset of struct nvme_pcie_ctrlr. -/
structure CmbState where
  cmb_size : Nat
  cmb_current_offset : Nat
deriving Repr, DecidableEq

/-- The alignment rounding of nvme_pcie_ctrlr_alloc_cmb (line 360):
round_offset = (round_offset + (aligned - 1)) & ~(aligned - 1) for the
power-of-two alignment aligned = 2^k, written with the equivalent
shift-out/shift-in of the low k bits. -/
def cmb_align_round (offset k : Nat) : Nat :=
  ((offset + (2 ^ k - 1)) >>> k) <<< k

/-- nvme_pcie_ctrlr_alloc_cmb (lines 352-369) for a power-of-two alignment
2^k: rounds cmb_current_offset up, fails (returns none, leaving the state
unchanged) when round_offset + length > cmb_size, otherwise returns the
rounded offset and advances cmb_current_offset to round_offset + length. -/
def nvme_pcie_ctrlr_alloc_cmb (st : CmbState) (length k : Nat) :
    Option (Nat × CmbState) :=
  let round_offset := cmb_align_round st.cmb_current_offset k
  if st.cmb_size < round_offset + length then
    none
  else
    some (round_offset, { st with cmb_current_offset := round_offset + length })

/-- nvme_pcie_ctrlr_map_cmb (lines 274-333), register decoding and
validation only (the BAR mapping platform call is taken to succeed, its
bar_size being the argument): rejects CMBSZ.sz = 0 and BAR indices 1 and
above 5, computes unit_size = 1 << (12 + 4*szu), size = unit_size * sz,
offset = unit_size * ofst, rejects offset > bar_size and
size > bar_size - offset, and otherwise establishes the allocator state
with cmb_current_offset = offset. -/
def nvme_pcie_ctrlr_map_cmb (cmbsz_sz cmbsz_szu cmbloc_bir cmbloc_ofst
    bar_size : Nat) : Option CmbState :=
  if cmbsz_sz = 0 then
    none
  else if 5 < cmbloc_bir ∨ cmbloc_bir = 1 then
    none
  else
    let unit_size := 2 ^ (12 + 4 * cmbsz_szu)
    let size := unit_size * cmbsz_sz
    let offset := unit_size * cmbloc_ofst
    if bar_size < offset then
      none
    else if bar_size - offset < size then
      none
    else
      some { cmb_size := size, cmb_current_offset := offset }

/-- One 16-byte completion queue entry as used by the transport: command id,
submission queue id, status fields (sct, sc, dnr) and the phase bit p. -/
structure NvmeCpl where
  cid : Nat
  sqid : Nat
  sct : Nat
  sc : Nat
  dnr : Nat
  p : Bool
deriving Repr, DecidableEq

instance : Inhabited NvmeCpl := ⟨⟨0, 0, 0, 0, 0, false⟩⟩

/-- Payload descriptor of a request: a contiguous virtual buffer or a
scatter list (the callback pair reset_sgl_fn / next_sge_fn modelled as the
list of elements the callbacks would produce). -/
inductive NvmePayload where
  | contig (ptr : Nat)
  | sgl (sges : List (Nat × Nat))
deriving Repr, DecidableEq

/-- The 64-byte submission queue entry fields the transport touches. -/
structure NvmeCmd where
  opc : Nat
  cid : Nat
  psdt : Nat
  mptr : Nat
  prp1 : Nat
  prp2 : Nat
  sgl1 : SglDesc
deriving Repr, DecidableEq

/-- The all-zero command (requests come from the pool zero-initialised). -/
def NvmeCmd.zero : NvmeCmd :=
  { opc := 0, cid := 0, psdt := 0, mptr := 0, prp1 := 0, prp2 := 0,
    sgl1 := default }

instance : Inhabited NvmeCmd := ⟨NvmeCmd.zero⟩

/-- An nvme_request as consumed by the transport: the command being built,
the payload descriptor, sizes and offsets, the retry counter, the owning
process id, whether a completion callback is registered (cb_fn != NULL),
and the saved completion used by cross-process admin routing. -/
structure NvmeRequest where
  cmd : NvmeCmd
  payload : NvmePayload
  payload_size : Nat
  payload_offset : Nat
  md : Option Nat
  md_offset : Nat
  retries : Nat
  pid : Nat
  has_cb : Bool
  cpl : NvmeCpl
deriving Repr, DecidableEq

/-- struct nvme_tracker: command id (equal to the array index), active flag,
attached request, bus address of the embedded descriptor area, and the
union area holding either PRP entries or SGL descriptors. -/
structure NvmeTracker where
  cid : Nat
  active : Bool
  req : Option NvmeRequest
  prp_sgl_bus_addr : Nat
  prp : List Nat
  sgl : List SglDesc
deriving Repr, DecidableEq

instance : Inhabited NvmeTracker :=
  ⟨{ cid := 0, active := false, req := none, prp_sgl_bus_addr := 0,
     prp := [], sgl := [] }⟩

/-- State of a struct nvme_pcie_qpair, with the rings modelled as total
maps from index to entry, the intrusive tracker lists as lists of command
ids, and three observation logs: MMIO writes to the SQ tail doorbell, MMIO
writes to the CQ head doorbell, and the completions passed to request
callbacks.  Software never writes the completion ring (the device does), so
cpl_ring only changes at reset. -/
structure PcieQpairSt where
  id : Nat
  num_entries : Nat
  sq : Nat → NvmeCmd
  cpl_ring : Nat → NvmeCpl
  sq_tail : Nat
  cq_head : Nat
  phase : Bool
  is_enabled : Bool
  trackers : Nat → NvmeTracker
  free_tr : List Nat
  outstanding_tr : List Nat
  queued_req : List NvmeRequest
  active_procs : List (Nat × List NvmeRequest)
  sq_dbl_log : List Nat
  cq_dbl_log : List Nat
  cb_log : List NvmeCpl

/-- Environment of the transport: the platform translation, the externally
defined completion classification helpers spdk_nvme_cpl_is_error and
nvme_completion_is_retry together with the retry limit spdk_nvme_retry_count
(all declared outside this file's source and therefore left as unconstrained
parameters), the current process id, the controller SGL-support flag, and
the controller is_resetting flag. -/
structure NvmeEnv where
  vtophys : Nat → Nat
  cpl_is_error : NvmeCpl → Bool
  completion_is_retry : NvmeCpl → Bool
  retry_count : Nat
  pid : Nat
  sgl_supported : Bool
  is_resetting : Bool

/-- Replace the tracker at index cid. -/
def setTracker (st : PcieQpairSt) (cid : Nat) (tr : NvmeTracker) : PcieQpairSt :=
  { st with trackers := fun c => if c = cid then tr else st.trackers c }

/-- Write the active flag of tracker cid. -/
def setActive (st : PcieQpairSt) (cid : Nat) (b : Bool) : PcieQpairSt :=
  setTracker st cid { st.trackers cid with active := b }

/-- Write the req field of tracker cid. -/
def setReq (st : PcieQpairSt) (cid : Nat) (r : Option NvmeRequest) : PcieQpairSt :=
  setTracker st cid { st.trackers cid with req := r }

/-- LIST_REMOVE of tracker cid from whichever intrusive list it is on,
followed by LIST_INSERT_HEAD onto free_tr (complete_tracker lines 834-835). -/
def trackerToFreeList (st : PcieQpairSt) (cid : Nat) : PcieQpairSt :=
  { st with free_tr := cid :: st.free_tr.erase cid,
            outstanding_tr := st.outstanding_tr.erase cid }

/-- nvme_pcie_qpair_submit_tracker (lines 767-785): mark the tracker active,
copy the request command into the submission ring at sq_tail, advance
sq_tail with wrap, and MMIO-write the new tail to the SQ tail doorbell
(after the write memory barrier, which has no observable effect in this
sequential model). -/
def nvme_pcie_qpair_submit_tracker (st : PcieQpairSt) (cid : Nat) : PcieQpairSt :=
  match (st.trackers cid).req with
  | none => st
  | some req =>
    let st := setActive st cid true
    let st := { st with sq := fun i => if i = st.sq_tail then req.cmd else st.sq i }
    let tail := if st.sq_tail + 1 = st.num_entries then 0 else st.sq_tail + 1
    { st with sq_tail := tail, sq_dbl_log := st.sq_dbl_log ++ [tail] }

/-- Append req to the pending list of the first process entry whose pid
matches (nvme_pcie_qpair_insert_pending_admin_request, lines 682-719); when
no process matches the request is dropped. -/
def insertPendingGo (pid : Nat) (req : NvmeRequest) :
    List (Nat × List NvmeRequest) → List (Nat × List NvmeRequest)
  | [] => []
  | pr :: rest =>
    if pr.1 = pid then (pr.1, pr.2 ++ [req]) :: rest
    else pr :: insertPendingGo pid req rest

/-- nvme_pcie_qpair_insert_pending_admin_request (lines 682-719): save the
completion into the request and park it on the owning process's pending
list. -/
def nvme_pcie_qpair_insert_pending_admin_request (st : PcieQpairSt)
    (req : NvmeRequest) (cpl : NvmeCpl) : PcieQpairSt :=
  { st with active_procs := insertPendingGo req.pid { req with cpl := cpl } st.active_procs }

/-- nvme_pcie_qpair_complete_pending_admin_request (lines 721-765): find the
current process's entry and drain its pending list, invoking the callback
of every request that has one with the completion saved in the request. -/
def nvme_pcie_qpair_complete_pending_admin_request (env : NvmeEnv)
    (st : PcieQpairSt) : PcieQpairSt :=
  match st.active_procs.find? (fun pr => pr.1 == env.pid) with
  | none => st
  | some pr =>
    { st with
      active_procs := st.active_procs.map (fun q => if q.1 == env.pid then (q.1, []) else q),
      cb_log := st.cb_log ++ (pr.2.filter (·.has_cb)).map (·.cpl) }

/-- Body of nvme_pcie_qpair_complete_tracker (lines 787-849), parametrised
by the function used to resubmit a queued request (in the source this is
the generic dispatcher nvme_qpair_submit_request from nvme_qpair.c, which
is not part of this file and is modelled from the spec, section 4.F, as
invoking the transport submit path): classify the completion, clear the
active flag, either resubmit the tracker (retry) or deliver the completion
(callback, or cross-process admin parking), detach the request, move the
tracker to the free list, and resubmit one queued request if the controller
is not resetting. -/
def nvme_pcie_complete_tracker_core (env : NvmeEnv)
    (submitQueued : PcieQpairSt → NvmeRequest → PcieQpairSt)
    (st : PcieQpairSt) (cpl : NvmeCpl) (_print_on_error : Bool) : PcieQpairSt :=
  match (st.trackers cpl.cid).req with
  | none => st
  | some req =>
    let error := env.cpl_is_error cpl
    let retry := error && env.completion_is_retry cpl &&
                 decide (req.retries < env.retry_count)
    let was_active := (st.trackers cpl.cid).active
    let st := setActive st cpl.cid false
    if retry then
      let st := setReq st cpl.cid (some { req with retries := req.retries + 1 })
      nvme_pcie_qpair_submit_tracker st cpl.cid
    else
      let st :=
        if was_active && req.has_cb then
          if st.id == 0 && req.pid != env.pid then
            nvme_pcie_qpair_insert_pending_admin_request st req cpl
          else
            { st with cb_log := st.cb_log ++ [cpl] }
        else st
      let st := setReq st cpl.cid none
      let st := trackerToFreeList st cpl.cid
      if env.is_resetting then st
      else
        match st.queued_req with
        | [] => st
        | q :: rest => submitQueued { st with queued_req := rest } q

/-- Body of nvme_pcie_qpair_submit_request (lines 1490-1544), parametrised
by the recursive callees check_enabled and manual_complete_tracker: queue
the request when no tracker is free or the qpair is disabled; otherwise
move the head free tracker to the outstanding list, attach the request with
cmd.cid = tracker cid, dispatch to the payload builder (null payload leaves
the PRP fields zeroed), manually complete the tracker with
(GENERIC, INVALID_FIELD, dnr=1) when the builder fails, and otherwise ring
the submission doorbell via submit_tracker. -/
def nvme_pcie_submit_request_core (env : NvmeEnv)
    (checkEnabled : PcieQpairSt → PcieQpairSt × Bool)
    (manualComplete : PcieQpairSt → Nat → Nat → Nat → Nat → Bool → PcieQpairSt)
    (st : PcieQpairSt) (req : NvmeRequest) : PcieQpairSt × Int :=
  let st := (checkEnabled st).1
  match st.free_tr with
  | [] => ({ st with queued_req := st.queued_req ++ [req] }, 0)
  | cid :: restFree =>
    if !st.is_enabled then
      ({ st with queued_req := st.queued_req ++ [req] }, 0)
    else
      let st := { st with free_tr := restFree,
                          outstanding_tr := cid :: st.outstanding_tr }
      let req := { req with cmd := { req.cmd with cid := cid } }
      let st := setReq st cid (some req)
      if req.payload_size = 0 then
        (nvme_pcie_qpair_submit_tracker st cid, 0)
      else
        match req.payload with
        | .contig ptr =>
          match nvme_pcie_qpair_build_contig_request env.vtophys ptr
              req.payload_offset req.payload_size req.md req.md_offset
              (st.trackers cid).prp_sgl_bus_addr with
          | .badVtophys =>
            (manualComplete st cid SPDK_NVME_SCT_GENERIC SPDK_NVME_SC_INVALID_FIELD 1 true, -1)
          | .ok out =>
            let mptr := if req.md.isSome then out.mptr else req.cmd.mptr
            let cmd := { req.cmd with psdt := out.psdt, prp1 := out.prp1, prp2 := out.prp2, mptr := mptr }
            let req := { req with cmd := cmd }
            let st := setReq st cid (some req)
            let st := setTracker st cid { st.trackers cid with prp := out.prps }
            (nvme_pcie_qpair_submit_tracker st cid, 0)
        | .sgl sges =>
          if env.sgl_supported then
            match nvme_pcie_qpair_build_hw_sgl_request env.vtophys sges
                req.payload_size (st.trackers cid).prp_sgl_bus_addr with
            | .badVtophys =>
              (manualComplete st cid SPDK_NVME_SCT_GENERIC SPDK_NVME_SC_INVALID_FIELD 1 true, -1)
            | .ok out =>
              let cmd := { req.cmd with psdt := out.psdt, sgl1 := out.sgl1 }
              let req := { req with cmd := cmd }
              let st := setReq st cid (some req)
              let st := setTracker st cid { st.trackers cid with sgl := out.descs }
              (nvme_pcie_qpair_submit_tracker st cid, 0)
          else
            match nvme_pcie_qpair_build_prps_sgl_request env.vtophys sges
                req.payload_size (st.trackers cid).prp_sgl_bus_addr with
            | .badVtophys =>
              (manualComplete st cid SPDK_NVME_SCT_GENERIC SPDK_NVME_SC_INVALID_FIELD 1 true, -1)
            | .ok acc =>
              let cmd := { req.cmd with psdt := acc.cmd_psdt, prp1 := acc.cmd_prp1, prp2 := acc.cmd_prp2 }
              let req := { req with cmd := cmd }
              let st := setReq st cid (some req)
              let st := setTracker st cid { st.trackers cid with prp := acc.prp }
              (nvme_pcie_qpair_submit_tracker st cid, 0)

mutual

/-- nvme_pcie_qpair_complete_tracker (lines 787-849); the fuel argument
bounds the mutual-recursion depth (queued-request resubmission), see the
file header. -/
def nvme_pcie_qpair_complete_tracker (env : NvmeEnv) (fuel : Nat)
    (st : PcieQpairSt) (cpl : NvmeCpl) (print_on_error : Bool) : PcieQpairSt :=
  match fuel with
  | 0 => st
  | fuel + 1 =>
    nvme_pcie_complete_tracker_core env
      (fun s r => (nvme_pcie_qpair_submit_request env fuel s r).1)
      st cpl print_on_error

/-- nvme_pcie_qpair_manual_complete_tracker (lines 851-865): fabricate a
completion with sqid = qpair id, cid = tracker cid, the given status and
phase 0, and run complete_tracker on it. -/
def nvme_pcie_qpair_manual_complete_tracker (env : NvmeEnv) (fuel : Nat)
    (st : PcieQpairSt) (cid sct sc dnr : Nat) (print_on_error : Bool) :
    PcieQpairSt :=
  match fuel with
  | 0 => st
  | fuel + 1 =>
    nvme_pcie_qpair_complete_tracker env fuel st
      { cid := cid, sqid := st.id, sct := sct, sc := sc, dnr := dnr, p := false }
      print_on_error

/-- The LIST_FOREACH_SAFE loop of nvme_pcie_qpair_abort_trackers (lines
867-878), iterating over a snapshot of the outstanding list (the SAFE
variant saves the next pointer before completing, and completions only ever
remove the visited node or insert at the list head, so the snapshot is
exactly the sequence of nodes visited). -/
def nvme_pcie_qpair_abort_trackers_go (env : NvmeEnv) (fuel : Nat)
    (st : PcieQpairSt) (cids : List Nat) (dnr : Nat) : PcieQpairSt :=
  match fuel, cids with
  | 0, _ => st
  | _ + 1, [] => st
  | fuel + 1, cid :: rest =>
    nvme_pcie_qpair_abort_trackers_go env fuel
      (nvme_pcie_qpair_manual_complete_tracker env fuel st cid
        SPDK_NVME_SCT_GENERIC SPDK_NVME_SC_ABORTED_BY_REQUEST dnr true)
      rest dnr

/-- nvme_pcie_qpair_enable (lines 930-962) reached through the generic
nvme_qpair_enable of nvme_qpair.c (not part of this file; modelled from the
spec, section 4.D, as invoking the transport enable): set is_enabled, then
manually abort every outstanding tracker, with dnr=0 on an I/O queue and
dnr=1 on the admin queue. -/
def nvme_pcie_qpair_enable_m (env : NvmeEnv) (fuel : Nat) (st : PcieQpairSt) :
    PcieQpairSt :=
  match fuel with
  | 0 => st
  | fuel + 1 =>
    let st := { st with is_enabled := true }
    if st.id ≠ 0 then
      nvme_pcie_qpair_abort_trackers_go env fuel st st.outstanding_tr 0
    else
      nvme_pcie_qpair_abort_trackers_go env fuel st st.outstanding_tr 1

/-- nvme_pcie_qpair_check_enabled (lines 1478-1488): when the qpair is
disabled and the controller is not resetting, enable it; return the
is_enabled flag. -/
def nvme_pcie_qpair_check_enabled (env : NvmeEnv) (fuel : Nat)
    (st : PcieQpairSt) : PcieQpairSt × Bool :=
  match fuel with
  | 0 => (st, st.is_enabled)
  | fuel + 1 =>
    if !st.is_enabled && !env.is_resetting then
      let st := nvme_pcie_qpair_enable_m env fuel st
      (st, st.is_enabled)
    else
      (st, st.is_enabled)

/-- nvme_pcie_qpair_submit_request (lines 1490-1544). -/
def nvme_pcie_qpair_submit_request (env : NvmeEnv) (fuel : Nat)
    (st : PcieQpairSt) (req : NvmeRequest) : PcieQpairSt × Int :=
  match fuel with
  | 0 => (st, 0)
  | fuel + 1 =>
    nvme_pcie_submit_request_core env
      (nvme_pcie_qpair_check_enabled env fuel)
      (fun s cid sct sc dnr p =>
        nvme_pcie_qpair_manual_complete_tracker env fuel s cid sct sc dnr p)
      st req

end

/-- nvme_pcie_qpair_abort_trackers (lines 867-878). -/
def nvme_pcie_qpair_abort_trackers (env : NvmeEnv) (fuel : Nat)
    (st : PcieQpairSt) (dnr : Nat) : PcieQpairSt :=
  nvme_pcie_qpair_abort_trackers_go env fuel st st.outstanding_tr dnr

/-- The completion-queue head advance of nvme_pcie_qpair_process_completions
(lines 1590-1593): increment cq_head; when it reaches num_entries, wrap it
to 0 and toggle the expected phase. -/
def nvme_pcie_cq_advance (num_entries cq_head : Nat) (phase : Bool) :
    Nat × Bool :=
  if cq_head + 1 = num_entries then (0, !phase) else (cq_head + 1, phase)

/-- The completion loop of nvme_pcie_qpair_process_completions (lines
1574-1598): read the entry at cq_head; stop when its phase bit differs from
the expected phase; complete the tracker it names when that tracker is
active (an inactive tracker is a protocol error: it is only logged, and in
debug builds asserted on, with no state change); advance cq_head with
phase toggle on wrap; stop after max_completions entries.  iter_fuel bounds
the iterations; the callers pass the clamped max_completions, which the
loop never exceeds, so the bound is exact whenever max_completions is
positive. -/
def nvme_pcie_qpair_poll_loop (env : NvmeEnv) (tracker_fuel : Nat)
    (iter_fuel : Nat) (st : PcieQpairSt) (num_completions max_completions : Nat) :
    PcieQpairSt × Nat :=
  match iter_fuel with
  | 0 => (st, num_completions)
  | iter_fuel + 1 =>
    let cpl := st.cpl_ring st.cq_head
    if cpl.p ≠ st.phase then
      (st, num_completions)
    else
      let st :=
        if (st.trackers cpl.cid).active then
          nvme_pcie_qpair_complete_tracker env tracker_fuel st cpl true
        else
          st
      let hp := nvme_pcie_cq_advance st.num_entries st.cq_head st.phase
      let st := { st with cq_head := hp.1, phase := hp.2 }
      let num_completions := num_completions + 1
      if num_completions = max_completions then
        (st, num_completions)
      else
        nvme_pcie_qpair_poll_loop env tracker_fuel iter_fuel st num_completions
          max_completions

/-- nvme_pcie_qpair_process_completions (lines 1546-1610): bail out with 0
when check_enabled reports the qpair disabled; clamp max_completions to
num_entries - 1 when it is 0 or larger than num_entries - 1; run the
completion loop; MMIO-write cq_head to the CQ head doorbell when at least
one completion was consumed; on the admin queue drain the current process's
pending admin completions. -/
def nvme_pcie_qpair_process_completions (env : NvmeEnv) (fuel : Nat)
    (st : PcieQpairSt) (max_completions : Nat) : PcieQpairSt × Nat :=
  let ce := nvme_pcie_qpair_check_enabled env fuel st
  if !ce.2 then
    (ce.1, 0)
  else
    let st := ce.1
    let maxc :=
      if max_completions = 0 ∨ st.num_entries - 1 < max_completions then
        st.num_entries - 1
      else
        max_completions
    let res := nvme_pcie_qpair_poll_loop env fuel maxc st 0 maxc
    let st := res.1
    let st :=
      if 0 < res.2 then { st with cq_dbl_log := st.cq_dbl_log ++ [st.cq_head] }
      else st
    let st :=
      if st.id = 0 then nvme_pcie_qpair_complete_pending_admin_request env st
      else st
    (st, res.2)

/-- nvme_pcie_qpair_reset (lines 549-571): zero both rings, set
sq_tail = cq_head = 0 and the expected phase to 1. -/
def nvme_pcie_qpair_reset (st : PcieQpairSt) : PcieQpairSt :=
  { st with sq_tail := 0, cq_head := 0, phase := true,
            sq := fun _ => NvmeCmd.zero, cpl_ring := fun _ => default }

/-- nvme_qpair_construct_tracker (lines 541-547): cid = array index,
prp_sgl_bus_addr = tracker physical address + offsetof(nvme_tracker, u.prp)
(40 bytes: two list pointers, the req pointer, cid, the bitfield word,
rsvd2 and prp_sgl_bus_addr itself), active = false. -/
def nvme_qpair_construct_tracker (cid phys_addr : Nat) : NvmeTracker :=
  { cid := cid, active := false, req := none,
    prp_sgl_bus_addr := phys_addr + 40,
    prp := List.replicate NVME_MAX_PRP_LIST_ENTRIES 0, sgl := [] }

/-- nvme_pcie_qpair_construct (lines 573-657), ring and tracker setup: all
num_trackers trackers are constructed at consecutive 4 KiB physical
addresses and pushed one by one onto the head of the free list (so the
free list holds num_trackers-1, ..., 1, 0), the outstanding list starts
empty, and the qpair is reset. -/
def nvme_pcie_qpair_construct (id num_entries num_trackers tr_phys_base : Nat) :
    PcieQpairSt :=
  let st : PcieQpairSt :=
    { id := id, num_entries := num_entries,
      sq := fun _ => NvmeCmd.zero, cpl_ring := fun _ => default,
      sq_tail := 0, cq_head := 0, phase := true, is_enabled := false,
      trackers := fun i =>
        if i < num_trackers then
          nvme_qpair_construct_tracker i (tr_phys_base + i * 4096)
        else
          default,
      free_tr := (List.range num_trackers).reverse,
      outstanding_tr := [], queued_req := [], active_procs := [],
      sq_dbl_log := [], cq_dbl_log := [], cb_log := [] }
  nvme_pcie_qpair_reset st

/-- The operations a user of the queue pair can perform on it: submit a
request, poll for completions, or abort all outstanding trackers (the
abort-all path of qpair fail/enable); completion of individual commands
happens inside poll. -/
inductive NvmeOp where
  | submitOp (req : NvmeRequest)
  | pollOp (max_completions : Nat)
  | abortOp (dnr : Nat)

/-- One operation applied to the queue pair state. -/
def nvme_pcie_qpair_step (env : NvmeEnv) (fuel : Nat) (st : PcieQpairSt) :
    NvmeOp → PcieQpairSt
  | .submitOp req => (nvme_pcie_qpair_submit_request env fuel st req).1
  | .pollOp maxc => (nvme_pcie_qpair_process_completions env fuel st maxc).1
  | .abortOp dnr => nvme_pcie_qpair_abort_trackers env fuel st dnr

/-- A sequence of operations applied from a starting state: the states
reachable from construct are exactly the results of nvme_pcie_qpair_run on
op lists. -/
def nvme_pcie_qpair_run (env : NvmeEnv) (fuel : Nat) (st : PcieQpairSt)
    (ops : List NvmeOp) : PcieQpairSt :=
  ops.foldl (nvme_pcie_qpair_step env fuel) st

/-- Iterated CQ head advance: the pair (cq_head, phase) after m consumed
completions. -/
def nvme_pcie_cq_advance_iter (num_entries : Nat) :
    Nat → Nat × Bool → Nat × Bool
  | 0, s => s
  | m + 1, s => nvme_pcie_cq_advance_iter num_entries m
      (nvme_pcie_cq_advance num_entries s.1 s.2)

/-- Fields of the queue pair state that the completion path never writes:
the completion-queue cursor (cq_head, phase), the completion ring itself,
the ring size, the queue id and the CQ doorbell log.  Only the poll loop
advances the cursor, and only the tail of process_completions writes the CQ
doorbell. -/
def KeepsCq (st st' : PcieQpairSt) : Prop :=
  st'.num_entries = st.num_entries ∧ st'.cq_head = st.cq_head ∧
  st'.phase = st.phase ∧ st'.cpl_ring = st.cpl_ring ∧
  st'.cq_dbl_log = st.cq_dbl_log ∧ st'.id = st.id

/-- Tracker bookkeeping invariant for a pool of T trackers: the free and
outstanding lists together hold each of the command ids 0 .. T-1 exactly
once, and only trackers with an id below T can be active. -/
def TrackerPartition (T : Nat) (st : PcieQpairSt) : Prop :=
  (st.free_tr ++ st.outstanding_tr).Perm (List.range T) ∧
  ∀ cid, (st.trackers cid).active = true → cid < T

/-- A concrete environment for witness evaluations: the identity
translation (which never returns the error sentinel on the small addresses
used), the standard error classification, no retries, process 0, no SGL
support, not resetting. -/
def testEnv : NvmeEnv :=
  { vtophys := fun a => a,
    cpl_is_error := fun c => !(c.sct == 0 && c.sc == 0),
    completion_is_retry := fun _ => false,
    retry_count := 4, pid := 0, sgl_supported := false, is_resetting := false }

/-- A concrete null-payload request for witness evaluations. -/
def testReq : NvmeRequest :=
  { cmd := NvmeCmd.zero, payload := .contig 0, payload_size := 0,
    payload_offset := 0, md := none, md_offset := 0, retries := 0, pid := 0,
    has_cb := false, cpl := default }

/-- A concrete enabled I/O queue pair (id 1, 2 entries, 1 tracker) whose
completion ring holds no entry matching the expected phase. -/
def testStPoll : PcieQpairSt :=
  { nvme_pcie_qpair_construct 1 2 1 0 with is_enabled := true }

/-- A concrete enabled I/O queue pair (id 1, 4 entries, 3 trackers) whose
completion ring entry 0 matches the expected phase but names the inactive
tracker 0. -/
def testStInactive : PcieQpairSt :=
  { nvme_pcie_qpair_construct 1 4 3 0 with
    is_enabled := true,
    cpl_ring := fun i =>
      if i = 0 then { cid := 0, sqid := 1, sct := 0, sc := 0, dnr := 0, p := true }
      else default }

/-- C1: for a contiguous payload, the number of PRP physical addresses
computed by the builder, nseg, equals the ceiling of
(payload_size + (phys mod PAGE)) / PAGE; equivalently it is
floor(payload_size / PAGE) plus, when the intra-page remainder modulo or
the start misalignment unaligned is nonzero,
1 + floor((modulo + unaligned - 1) / PAGE). -/
theorem C1_contig_nseg_is_ceil (payload_size phys_addr : Nat) :
    nvme_prp_nseg payload_size phys_addr =
      (payload_size + phys_addr % PAGE_SIZE + (PAGE_SIZE - 1)) / PAGE_SIZE ∧
    nvme_prp_nseg payload_size phys_addr =
      (if payload_size % PAGE_SIZE ≠ 0 ∨ phys_addr % PAGE_SIZE ≠ 0 then
        payload_size / PAGE_SIZE +
          (1 + (payload_size % PAGE_SIZE + phys_addr % PAGE_SIZE - 1) / PAGE_SIZE)
      else payload_size / PAGE_SIZE) := by
  constructor
  · simp only [nvme_prp_nseg, PAGE_SIZE]
    by_cases h1 : payload_size % 4096 = 0 <;>
      by_cases h2 : phys_addr % 4096 = 0 <;>
      simp [h1, h2] <;> omega
  · rfl

/-- Characterisation of the contiguous-builder PRP list loop: when it
succeeds it produces one entry per remaining iteration, entry j being the
translation of payload + (cur + j) * PAGE_SIZE - unaligned. -/
theorem contig_prp_loop_ok (vtophys : Nat → Nat) (payload unaligned : Nat) :
    ∀ remaining cur prps,
      nvme_pcie_contig_prp_loop vtophys payload unaligned cur remaining = .ok prps →
      prps.length = remaining ∧
      ∀ j, j < remaining →
        prps.getD j 0 = vtophys (payload + (cur + j) * PAGE_SIZE - unaligned) := by
  intro remaining
  induction remaining with
  | zero =>
    intro cur prps h
    simp only [nvme_pcie_contig_prp_loop] at h
    cases h
    exact ⟨rfl, fun j hj => absurd hj (Nat.not_lt_zero j)⟩
  | succ n ih =>
    intro cur prps h
    simp only [nvme_pcie_contig_prp_loop] at h
    split at h
    · exact absurd h (by simp)
    · rename_i hne
      cases hrec : nvme_pcie_contig_prp_loop vtophys payload unaligned (cur + 1) n with
      | ok rest =>
        rw [hrec] at h
        cases h
        obtain ⟨hlen, hget⟩ := ih (cur + 1) rest hrec
        refine ⟨by simp [hlen], ?_⟩
        intro j hj
        cases j with
        | zero => simp
        | succ j' =>
          have hj' : j' < n := by omega
          have := hget j' hj'
          have harg : cur + 1 + j' = cur + (j' + 1) := by omega
          rw [harg] at this
          simpa using this
      | badVtophys =>
        rw [hrec] at h
        cases h

/-- C2: for every contiguous build that returns success, cmd.psdt is PRP
and prp1 is the translated start address; when nseg = 2, prp2 is the
translation of payload + PAGE - unaligned; when nseg > 2, prp2 is the
tracker's prp_sgl_bus_addr and for every k in 1 .. nseg-1 the tracker PRP
entry k-1 holds the translation of payload + k * PAGE - unaligned. -/
theorem C2_contig_build_fields (vtophys : Nat → Nat)
    (contig payload_offset payload_size : Nat) (md : Option Nat)
    (md_offset prp_sgl_bus_addr : Nat) (out : ContigOut)
    (h : nvme_pcie_qpair_build_contig_request vtophys contig payload_offset
      payload_size md md_offset prp_sgl_bus_addr = .ok out) :
    out.psdt = SPDK_NVME_PSDT_PRP ∧
    out.prp1 = vtophys (contig + payload_offset) ∧
    (nvme_prp_nseg payload_size (vtophys (contig + payload_offset)) = 2 →
      out.prp2 = vtophys (contig + payload_offset + PAGE_SIZE -
        vtophys (contig + payload_offset) % PAGE_SIZE)) ∧
    (2 < nvme_prp_nseg payload_size (vtophys (contig + payload_offset)) →
      out.prp2 = prp_sgl_bus_addr ∧
      out.prps.length =
        nvme_prp_nseg payload_size (vtophys (contig + payload_offset)) - 1 ∧
      ∀ k, 1 ≤ k →
        k < nvme_prp_nseg payload_size (vtophys (contig + payload_offset)) →
        out.prps.getD (k - 1) 0 = vtophys (contig + payload_offset +
          k * PAGE_SIZE - vtophys (contig + payload_offset) % PAGE_SIZE)) := by
  simp only [nvme_pcie_qpair_build_contig_request] at h
  split at h
  · cases h
  · rename_i hok
    split at h
    · cases h
    · rename_i mptr hm
      split at h
      · rename_i h2
        cases h
        refine ⟨rfl, rfl, fun _ => rfl, fun hgt => absurd h2 (by omega)⟩
      · rename_i h2
        split at h
        · rename_i hgt
          split at h
          · cases h
          · rename_i prps hloop
            cases h
            obtain ⟨hlen, hget⟩ := contig_prp_loop_ok vtophys
              (contig + payload_offset)
              (vtophys (contig + payload_offset) % PAGE_SIZE)
              (nvme_prp_nseg payload_size (vtophys (contig + payload_offset)) - 1)
              1 prps hloop
            refine ⟨rfl, rfl, fun habs => absurd habs h2, fun _ => ⟨rfl, hlen, ?_⟩⟩
            intro k hk1 hk2
            have hj : k - 1 <
                nvme_prp_nseg payload_size (vtophys (contig + payload_offset)) - 1 := by
              omega
            have := hget (k - 1) hj
            have harg : 1 + (k - 1) = k := by omega
            rw [harg] at this
            exact this
        · rename_i hle
          cases h
          refine ⟨rfl, rfl, fun habs => absurd habs h2, fun hgt => absurd hgt hle⟩

/-- C3, divergence witness: the contiguous builder does not check the
virt-to-phys translation of the second page when nseg is exactly 2; with a
translation that fails exactly at the second page it returns success and
stores the error sentinel in prp2, instead of manually completing the
tracker with (GENERIC, INVALID_FIELD, dnr=1) and returning failure. -/
theorem C3_contig_prp2_unchecked :
    nvme_pcie_qpair_build_contig_request
      (fun a => if a = 4096 then SPDK_VTOPHYS_ERROR else a) 0 0 8192 none 0 999 =
    .ok { psdt := SPDK_NVME_PSDT_PRP, prp1 := 0, prp2 := SPDK_VTOPHYS_ERROR,
          mptr := 0, prps := [] } := by
  rfl

/-- Witness for C2: an 8 KiB contiguous payload starting 0x200 into a page
builds three PRP segments, with prp2 = prp_sgl_bus_addr and the tracker
PRP entry 0 holding the translation of payload + PAGE - unaligned. -/
theorem C2_contig_build_fields_witness :
    nvme_pcie_qpair_build_contig_request (fun a => a) 512 0 8192 none 0 999 =
      .ok ⟨0, 512, 999, 0, [4096, 8192]⟩ ∧
    (⟨0, 512, 999, 0, [4096, 8192]⟩ : ContigOut).prp2 = 999 ∧
    (⟨0, 512, 999, 0, [4096, 8192]⟩ : ContigOut).prps.getD (1 - 1) 0 =
      (fun a => a) (512 + 0 + 1 * PAGE_SIZE - (fun a => a) (512 + 0) % PAGE_SIZE) := by
  have h := C2_contig_build_fields (fun a => a) 512 0 8192 none 0 999
    ⟨0, 512, 999, 0, [4096, 8192]⟩ rfl
  exact ⟨rfl, (h.2.2.2 (by decide)).1, (h.2.2.2 (by decide)).2.2 1 (by decide) (by decide)⟩

/-- The hardware-SGL loop never produces more descriptors than
NVME_MAX_SGL_DESCRIPTORS minus the starting count. -/
theorem hw_sgl_loop_length_le (vtophys : Nat → Nat) :
    ∀ (sges : List (Nat × Nat)) (remaining nseg : Nat) (descs : List SglDesc),
      nvme_pcie_hw_sgl_loop vtophys sges remaining nseg = .ok descs →
      descs.length ≤ NVME_MAX_SGL_DESCRIPTORS - nseg := by
  intro sges
  induction sges with
  | nil =>
    intro remaining nseg descs h
    simp only [nvme_pcie_hw_sgl_loop] at h
    split at h
    · cases h; simp
    · split at h
      · cases h
      · cases h
  | cons hd tl ih =>
    intro remaining nseg descs h
    obtain ⟨virt_addr, len⟩ := hd
    simp only [nvme_pcie_hw_sgl_loop] at h
    split at h
    · cases h; simp
    · rename_i hcap
      split at h
      · cases h
      · split at h
        · cases h
        · rename_i hok
          cases hrec : nvme_pcie_hw_sgl_loop vtophys tl
              (remaining - min remaining len) (nseg + 1) with
          | ok descs' =>
            rw [hrec] at h
            cases h
            have := ih (remaining - min remaining len) (nseg + 1) descs' hrec
            simp only [NVME_MAX_SGL_DESCRIPTORS] at *
            simp only [List.length_cons]
            omega
          | badVtophys =>
            rw [hrec] at h
            cases h

/-- C4: every successful hardware-SGL build has at most
NVME_MAX_SGL_DESCRIPTORS descriptors (so a build needing more than 253
fails with the BadAddress manual completion, the builder's only failure
mode); a single descriptor is inlined into cmd.sgl1 as a Data Block, and
two or more descriptors make cmd.sgl1 a Last Segment descriptor with
address prp_sgl_bus_addr and length nseg * 16. -/
theorem C4_hw_sgl_build (vtophys : Nat → Nat) (sges : List (Nat × Nat))
    (payload_size prp_sgl_bus_addr : Nat) (out : HwSglOut)
    (h : nvme_pcie_qpair_build_hw_sgl_request vtophys sges payload_size
      prp_sgl_bus_addr = .ok out) :
    out.psdt = SPDK_NVME_PSDT_SGL_MPTR_SGL ∧
    out.descs.length ≤ NVME_MAX_SGL_DESCRIPTORS ∧
    (out.descs.length = 1 →
      out.sgl1 = { sgl_type := SPDK_NVME_SGL_TYPE_DATA_BLOCK,
                   length := (out.descs.headD default).length,
                   address := (out.descs.headD default).address, subtype := 0 }) ∧
    (2 ≤ out.descs.length →
      out.sgl1 = { sgl_type := SPDK_NVME_SGL_TYPE_LAST_SEGMENT,
                   length := out.descs.length * 16,
                   address := prp_sgl_bus_addr, subtype := 0 }) := by
  simp only [nvme_pcie_qpair_build_hw_sgl_request] at h
  cases hloop : nvme_pcie_hw_sgl_loop vtophys sges payload_size 0 with
  | badVtophys => rw [hloop] at h; cases h
  | ok descs =>
    rw [hloop] at h
    have hle := hw_sgl_loop_length_le vtophys sges payload_size 0 descs hloop
    simp only [] at h
    by_cases h1 : descs.length = 1
    · rw [if_pos h1] at h
      cases h
      refine ⟨rfl, by simpa using hle, fun _ => rfl, fun h2 => ?_⟩
      have h2' : 2 ≤ descs.length := h2
      omega
    · rw [if_neg h1] at h
      cases h
      refine ⟨rfl, by simpa using hle, fun he => ?_, fun _ => rfl⟩
      have he' : descs.length = 1 := he
      exact absurd he' h1

/-- Witness for C4: a scattered payload of two page-sized elements builds
two descriptors and a Last Segment sgl1 of length 32. -/
theorem C4_hw_sgl_build_witness :
    nvme_pcie_qpair_build_hw_sgl_request (fun a => a) [(4096, 4096), (12288, 4096)]
      8192 777 =
      .ok ⟨SPDK_NVME_PSDT_SGL_MPTR_SGL, ⟨SPDK_NVME_SGL_TYPE_LAST_SEGMENT, 32, 777, 0⟩,
           [⟨SPDK_NVME_SGL_TYPE_DATA_BLOCK, 4096, 4096, 0⟩,
            ⟨SPDK_NVME_SGL_TYPE_DATA_BLOCK, 4096, 12288, 0⟩]⟩ ∧
    (⟨SPDK_NVME_PSDT_SGL_MPTR_SGL, ⟨SPDK_NVME_SGL_TYPE_LAST_SEGMENT, 32, 777, 0⟩,
      [⟨SPDK_NVME_SGL_TYPE_DATA_BLOCK, 4096, 4096, 0⟩,
       ⟨SPDK_NVME_SGL_TYPE_DATA_BLOCK, 4096, 12288, 0⟩]⟩ : HwSglOut).sgl1 =
      { sgl_type := SPDK_NVME_SGL_TYPE_LAST_SEGMENT, length := 2 * 16,
        address := 777, subtype := 0 } := by
  refine ⟨rfl, ?_⟩
  have h := C4_hw_sgl_build (fun a => a) [(4096, 4096), (12288, 4096)] 8192 777
    ⟨SPDK_NVME_PSDT_SGL_MPTR_SGL, ⟨SPDK_NVME_SGL_TYPE_LAST_SEGMENT, 32, 777, 0⟩,
     [⟨SPDK_NVME_SGL_TYPE_DATA_BLOCK, 4096, 4096, 0⟩,
      ⟨SPDK_NVME_SGL_TYPE_DATA_BLOCK, 4096, 12288, 0⟩]⟩ rfl
  exact h.2.2.2 (by decide)

/-- Round-up facts for a positive divisor: (o + (b-1)) / b * b is a
multiple of b, is at least o and is below o + b. -/
theorem div_roundup_facts (b o : Nat) (hb : 0 < b) :
    o ≤ (o + (b - 1)) / b * b ∧ (o + (b - 1)) / b * b % b = 0 ∧
    (o + (b - 1)) / b * b < o + b := by
  have hdm := Nat.div_add_mod (o + (b - 1)) b
  have hr := Nat.mod_lt (o + (b - 1)) hb
  have hc : (o + (b - 1)) / b * b = b * ((o + (b - 1)) / b) := Nat.mul_comm _ _
  refine ⟨?_, Nat.mul_mod_left _ _, ?_⟩ <;> rw [hc]
  · obtain ⟨X, hX⟩ : ∃ X, b * ((o + (b - 1)) / b) = X := ⟨_, rfl⟩
    obtain ⟨r, hrr⟩ : ∃ r, (o + (b - 1)) % b = r := ⟨_, rfl⟩
    rw [hX, hrr] at hdm
    rw [hrr] at hr
    rw [hX]
    omega
  · obtain ⟨X, hX⟩ : ∃ X, b * ((o + (b - 1)) / b) = X := ⟨_, rfl⟩
    obtain ⟨r, hrr⟩ : ∃ r, (o + (b - 1)) % b = r := ⟨_, rfl⟩
    rw [hX, hrr] at hdm
    rw [hrr] at hr
    rw [hX]
    omega

/-- The CMB alignment rounding is the least multiple of 2^k at or above
the current offset. -/
theorem cmb_align_round_spec (offset k : Nat) :
    offset ≤ cmb_align_round offset k ∧
    cmb_align_round offset k % 2 ^ k = 0 ∧
    cmb_align_round offset k < offset + 2 ^ k := by
  have hb : 0 < 2 ^ k := Nat.pos_pow_of_pos k (by norm_num)
  have hrw : cmb_align_round offset k = (offset + (2 ^ k - 1)) / 2 ^ k * 2 ^ k := by
    unfold cmb_align_round
    rw [Nat.shiftLeft_eq, Nat.shiftRight_eq_div_pow]
  rw [hrw]
  exact div_roundup_facts (2 ^ k) offset hb

/-- C5: the CMB bump allocator rounds the current bump offset up to the
power-of-two alignment 2^k (to the least aligned offset at or above it),
fails exactly when the rounded offset plus the requested length exceeds the
CMB size (leaving the state unchanged, since no new state is produced), and
on success returns the rounded offset and advances the bump offset to
rounded offset + length, which maintains the invariant
cmb_current_offset <= cmb_size; the starting bump offset established by
nvme_pcie_ctrlr_map_cmb is the CMB offset within its BAR, unit_size * ofst,
with cmb_size = unit_size * sz. -/
theorem C5_cmb_alloc_spec (st : CmbState) (length k : Nat) :
    (st.cmb_current_offset ≤ cmb_align_round st.cmb_current_offset k ∧
     cmb_align_round st.cmb_current_offset k % 2 ^ k = 0 ∧
     cmb_align_round st.cmb_current_offset k < st.cmb_current_offset + 2 ^ k) ∧
    (nvme_pcie_ctrlr_alloc_cmb st length k = none ↔
      st.cmb_size < cmb_align_round st.cmb_current_offset k + length) ∧
    (∀ off st', nvme_pcie_ctrlr_alloc_cmb st length k = some (off, st') →
      off = cmb_align_round st.cmb_current_offset k ∧
      st'.cmb_current_offset = off + length ∧
      st'.cmb_size = st.cmb_size ∧
      st'.cmb_current_offset ≤ st'.cmb_size) ∧
    (∀ sz szu bir ofst bar st0,
      nvme_pcie_ctrlr_map_cmb sz szu bir ofst bar = some st0 →
      st0.cmb_current_offset = 2 ^ (12 + 4 * szu) * ofst ∧
      st0.cmb_size = 2 ^ (12 + 4 * szu) * sz) := by
  refine ⟨cmb_align_round_spec st.cmb_current_offset k, ?_, ?_, ?_⟩
  · unfold nvme_pcie_ctrlr_alloc_cmb
    constructor
    · intro h
      by_cases hlt : st.cmb_size < cmb_align_round st.cmb_current_offset k + length
      · exact hlt
      · rw [if_neg hlt] at h
        cases h
    · intro hlt
      rw [if_pos hlt]
  · intro off st' h
    unfold nvme_pcie_ctrlr_alloc_cmb at h
    by_cases hlt : st.cmb_size < cmb_align_round st.cmb_current_offset k + length
    · rw [if_pos hlt] at h
      cases h
    · rw [if_neg hlt] at h
      cases h
      refine ⟨rfl, rfl, rfl, ?_⟩
      show cmb_align_round st.cmb_current_offset k + length ≤ st.cmb_size
      omega
  · intro sz szu bir ofst bar st0 h
    unfold nvme_pcie_ctrlr_map_cmb at h
    split at h
    · cases h
    · split at h
      · cases h
      · simp only [] at h
        split at h
        · cases h
        · split at h
          · cases h
          · cases h
            exact ⟨rfl, rfl⟩

/-- Witness for C5: a CMB of 8 KiB at offset 0 (CMBSZ.sz = 2, szu = 0,
CMBLOC.ofst = 0) accepts one 8 KiB allocation at 4 KiB alignment at offset
0 and is then full, with the invariant preserved. -/
theorem C5_cmb_alloc_spec_witness :
    nvme_pcie_ctrlr_map_cmb 2 0 2 0 8192 = some ⟨8192, 0⟩ ∧
    nvme_pcie_ctrlr_alloc_cmb ⟨8192, 0⟩ 8192 12 = some (0, ⟨8192, 8192⟩) ∧
    (0 : Nat) = cmb_align_round 0 12 ∧
    (⟨8192, 8192⟩ : CmbState).cmb_current_offset ≤ (⟨8192, 8192⟩ : CmbState).cmb_size := by
  have h := C5_cmb_alloc_spec ⟨8192, 0⟩ 8192 12
  have hs := h.2.2.1 0 ⟨8192, 8192⟩ rfl
  exact ⟨rfl, rfl, hs.1, hs.2.2.2⟩

/-- C8: in the PRP-from-scatter builder, a scatter element whose translated
physical start is not 4-byte aligned, or which is shorter than the
remaining transfer length and whose physical end is not page aligned, makes
the build fail (returning the BadAddress manual-completion outcome). -/
theorem C8_prps_sgl_checks (vtophys : Nat → Nat)
    (prp_sgl_bus_addr virt_addr length : Nat) (rest : List (Nat × Nat))
    (remaining : Nat) (acc : PrpsSglAcc)
    (hrem : 0 < remaining)
    (htr : vtophys virt_addr ≠ SPDK_VTOPHYS_ERROR)
    (hviol : vtophys virt_addr % 4 ≠ 0 ∨
      (length < remaining ∧ (vtophys virt_addr + length) % PAGE_SIZE ≠ 0)) :
    nvme_pcie_prps_sgl_loop vtophys prp_sgl_bus_addr ((virt_addr, length) :: rest)
      remaining acc = .badVtophys := by
  rw [nvme_pcie_prps_sgl_loop]
  rw [if_neg (by omega)]
  simp only []
  rw [if_neg htr, if_pos hviol]

/-- Witness for C8: a single scatter element whose physical start is 2
(2 mod 4 differs from 0) fails the build. -/
theorem C8_prps_sgl_checks_witness :
    nvme_pcie_qpair_build_prps_sgl_request (fun a => a) [(2, 16)] 16 0 =
      .badVtophys := by
  rw [nvme_pcie_qpair_build_prps_sgl_request]
  exact C8_prps_sgl_checks (fun a => a) 0 2 16 [] 16 _ (by decide) (by decide)
    (Or.inl (by decide))

/-- Closed form of the iterated CQ head advance: starting below N, after m
completions the head is at (start + m) mod N and the phase has toggled
once per wrap, i.e. (start + m) / N times. -/
theorem cq_advance_iter_closed (N : Nat) (hN : 0 < N) :
    ∀ (m cq_head : Nat) (phase : Bool), cq_head < N →
      nvme_pcie_cq_advance_iter N m (cq_head, phase) =
        ((cq_head + m) % N,
         if ((cq_head + m) / N) % 2 = 0 then phase else !phase) := by
  intro m
  induction m with
  | zero =>
    intro h b hh
    simp [nvme_pcie_cq_advance_iter, Nat.mod_eq_of_lt hh, Nat.div_eq_of_lt hh]
  | succ m ih =>
    intro h b hh
    simp only [nvme_pcie_cq_advance_iter]
    by_cases hw : h + 1 = N
    · rw [nvme_pcie_cq_advance, if_pos hw]
      have := ih 0 (!b) hN
      simp only [Nat.zero_add] at this
      rw [this]
      have e1 : h + (m + 1) = N + m := by omega
      rw [e1, Nat.add_mod_left, Nat.add_div_left m hN]
      rcases Nat.mod_two_eq_zero_or_one (m / N) with hp | hp
      · have hp1 : (m / N + 1) % 2 = 1 := by omega
        simp [hp, hp1]
      · have hp1 : (m / N + 1) % 2 = 0 := by omega
        simp [hp, hp1]
    · rw [nvme_pcie_cq_advance, if_neg hw]
      have := ih (h + 1) b (by omega)
      rw [this]
      have e1 : h + 1 + m = h + (m + 1) := by omega
      rw [e1]

/-- C6: after reset the expected phase is 1, cq_head is 0 (and sq_tail is
0); advancing the CQ head past entry N-1 wraps it to 0 and toggles the
expected phase, so from the reset state the phase after m completions has
toggled m / N times: after exactly N completions it has toggled exactly
once, and after 2N completions it equals its initial value again. -/
theorem C6_reset_phase_wrap (st : PcieQpairSt) (N : Nat) (hN : 0 < N) :
    ((nvme_pcie_qpair_reset st).cq_head = 0 ∧
     (nvme_pcie_qpair_reset st).phase = true ∧
     (nvme_pcie_qpair_reset st).sq_tail = 0) ∧
    (∀ m, nvme_pcie_cq_advance_iter N m (0, true) =
        (m % N, if (m / N) % 2 = 0 then true else false)) ∧
    nvme_pcie_cq_advance_iter N N (0, true) = (0, false) ∧
    nvme_pcie_cq_advance_iter N (2 * N) (0, true) = (0, true) := by
  have hcf := cq_advance_iter_closed N hN
  have hall : ∀ m, nvme_pcie_cq_advance_iter N m (0, true) =
      (m % N, if (m / N) % 2 = 0 then true else false) := by
    intro m
    have := hcf m 0 true hN
    simpa using this
  refine ⟨⟨rfl, rfl, rfl⟩, hall, ?_, ?_⟩
  · rw [hall N, Nat.mod_self, Nat.div_self hN]
    norm_num
  · rw [hall (2 * N), Nat.mul_mod_left, Nat.mul_div_cancel 2 hN]
    norm_num

/-- Witness for C6: on a 4-entry queue, 4 completions toggle the phase
once and 8 completions restore it; reset of a concrete qpair state yields
phase 1 and cq_head 0. -/
theorem C6_reset_phase_wrap_witness :
    nvme_pcie_cq_advance_iter 4 4 (0, true) = (0, false) ∧
    nvme_pcie_cq_advance_iter 4 (2 * 4) (0, true) = (0, true) ∧
    (nvme_pcie_qpair_reset testStPoll).phase = true ∧
    (nvme_pcie_qpair_reset testStPoll).cq_head = 0 := by
  have h := C6_reset_phase_wrap testStPoll 4 (by decide)
  exact ⟨h.2.2.1, h.2.2.2, h.1.2.1, h.1.1⟩

/-- KeepsCq is reflexive. -/
theorem keepsCq_refl (st : PcieQpairSt) : KeepsCq st st :=
  ⟨rfl, rfl, rfl, rfl, rfl, rfl⟩

/-- KeepsCq is transitive. -/
theorem keepsCq_trans {a b c : PcieQpairSt} (h1 : KeepsCq a b) (h2 : KeepsCq b c) :
    KeepsCq a c :=
  ⟨h2.1.trans h1.1, h2.2.1.trans h1.2.1, h2.2.2.1.trans h1.2.2.1,
   h2.2.2.2.1.trans h1.2.2.2.1, h2.2.2.2.2.1.trans h1.2.2.2.2.1,
   h2.2.2.2.2.2.trans h1.2.2.2.2.2⟩

/-- Replacing a tracker leaves the CQ fields unchanged. -/
theorem keepsCq_setTracker (st : PcieQpairSt) (cid : Nat) (tr : NvmeTracker) :
    KeepsCq st (setTracker st cid tr) :=
  ⟨rfl, rfl, rfl, rfl, rfl, rfl⟩

/-- Writing an active flag leaves the CQ fields unchanged. -/
theorem keepsCq_setActive (st : PcieQpairSt) (cid : Nat) (b : Bool) :
    KeepsCq st (setActive st cid b) :=
  ⟨rfl, rfl, rfl, rfl, rfl, rfl⟩

/-- Writing a tracker's request leaves the CQ fields unchanged. -/
theorem keepsCq_setReq (st : PcieQpairSt) (cid : Nat) (r : Option NvmeRequest) :
    KeepsCq st (setReq st cid r) :=
  ⟨rfl, rfl, rfl, rfl, rfl, rfl⟩

/-- Moving a tracker to the free list leaves the CQ fields unchanged. -/
theorem keepsCq_toFree (st : PcieQpairSt) (cid : Nat) :
    KeepsCq st (trackerToFreeList st cid) :=
  ⟨rfl, rfl, rfl, rfl, rfl, rfl⟩

/-- Submitting a tracker writes only the SQ side. -/
theorem keepsCq_submit_tracker (st : PcieQpairSt) (cid : Nat) :
    KeepsCq st (nvme_pcie_qpair_submit_tracker st cid) := by
  unfold nvme_pcie_qpair_submit_tracker
  split
  · exact keepsCq_refl st
  · exact ⟨rfl, rfl, rfl, rfl, rfl, rfl⟩

/-- Parking a cross-process admin request touches only active_procs. -/
theorem keepsCq_insertPending (st : PcieQpairSt) (req : NvmeRequest)
    (cpl : NvmeCpl) :
    KeepsCq st (nvme_pcie_qpair_insert_pending_admin_request st req cpl) :=
  ⟨rfl, rfl, rfl, rfl, rfl, rfl⟩

/-- Draining pending admin completions touches only active_procs and
cb_log. -/
theorem keepsCq_drainPending (env : NvmeEnv) (st : PcieQpairSt) :
    KeepsCq st (nvme_pcie_qpair_complete_pending_admin_request env st) := by
  unfold nvme_pcie_qpair_complete_pending_admin_request
  split
  · exact keepsCq_refl st
  · exact ⟨rfl, rfl, rfl, rfl, rfl, rfl⟩

/-- The tail of the complete-tracker body (request detach, tracker release,
queued-request resubmission) keeps the CQ fields whenever the resubmission
function does. -/
theorem keepsCq_complete_finish (env : NvmeEnv)
    (sq : PcieQpairSt → NvmeRequest → PcieQpairSt)
    (hsq : ∀ s r, KeepsCq s (sq s r)) (st mid : PcieQpairSt) (c : Nat)
    (hmid : KeepsCq st mid) :
    KeepsCq st
      (let s3 := setReq mid c none
       let s4 := trackerToFreeList s3 c
       if env.is_resetting then s4
       else
         match s4.queued_req with
         | [] => s4
         | q :: rest => sq { s4 with queued_req := rest } q) := by
  have h4 : KeepsCq st (trackerToFreeList (setReq mid c none) c) :=
    keepsCq_trans hmid (keepsCq_trans (keepsCq_setReq _ _ _) (keepsCq_toFree _ _))
  simp only []
  split
  · exact h4
  · split
    · exact h4
    · exact keepsCq_trans h4
        (keepsCq_trans ⟨rfl, rfl, rfl, rfl, rfl, rfl⟩ (hsq _ _))

/-- The complete-tracker body keeps the CQ fields whenever the queued
resubmission function does. -/
theorem keepsCq_completeCore (env : NvmeEnv)
    (sq : PcieQpairSt → NvmeRequest → PcieQpairSt)
    (hsq : ∀ s r, KeepsCq s (sq s r)) (st : PcieQpairSt) (cpl : NvmeCpl)
    (p : Bool) :
    KeepsCq st (nvme_pcie_complete_tracker_core env sq st cpl p) := by
  unfold nvme_pcie_complete_tracker_core
  split
  · exact keepsCq_refl st
  · simp only []
    split
    · exact keepsCq_trans (keepsCq_setActive _ _ _)
        (keepsCq_trans (keepsCq_setReq _ _ _) (keepsCq_submit_tracker _ _))
    · refine keepsCq_complete_finish env sq hsq st _ cpl.cid ?_
      split
      · split
        · exact keepsCq_trans (keepsCq_setActive _ _ _) (keepsCq_insertPending _ _ _)
        · exact keepsCq_trans (keepsCq_setActive st cpl.cid false)
            ⟨rfl, rfl, rfl, rfl, rfl, rfl⟩
      · exact keepsCq_setActive _ _ _

/-- Replacing the two tracker lists leaves the CQ fields unchanged. -/
theorem keepsCq_listMove (st : PcieQpairSt) (f o : List Nat) :
    KeepsCq st { st with free_tr := f, outstanding_tr := o } :=
  ⟨rfl, rfl, rfl, rfl, rfl, rfl⟩

/-- Replacing the queued-request list leaves the CQ fields unchanged. -/
theorem keepsCq_queueSet (st : PcieQpairSt) (q : List NvmeRequest) :
    KeepsCq st { st with queued_req := q } :=
  ⟨rfl, rfl, rfl, rfl, rfl, rfl⟩

/-- The submit-request body keeps the CQ fields whenever its check-enabled
and manual-complete callees do. -/
theorem keepsCq_submitCore (env : NvmeEnv)
    (ce : PcieQpairSt → PcieQpairSt × Bool)
    (mc : PcieQpairSt → Nat → Nat → Nat → Nat → Bool → PcieQpairSt)
    (hce : ∀ s, KeepsCq s (ce s).1)
    (hmc : ∀ s c a b d p, KeepsCq s (mc s c a b d p))
    (st : PcieQpairSt) (req : NvmeRequest) :
    KeepsCq st (nvme_pcie_submit_request_core env ce mc st req).1 := by
  unfold nvme_pcie_submit_request_core
  simp only []
  have h0 := hce st
  split
  · exact keepsCq_trans h0 (keepsCq_queueSet _ _)
  · split
    · exact keepsCq_trans h0 (keepsCq_queueSet _ _)
    · split
      · exact keepsCq_trans h0 (keepsCq_trans (keepsCq_listMove _ _ _)
          (keepsCq_trans (keepsCq_setReq _ _ _) (keepsCq_submit_tracker _ _)))
      · split
        · split
          · exact keepsCq_trans h0 (keepsCq_trans (keepsCq_listMove _ _ _)
              (keepsCq_trans (keepsCq_setReq _ _ _) (hmc _ _ _ _ _ _)))
          · exact keepsCq_trans h0 (keepsCq_trans (keepsCq_listMove _ _ _)
              (keepsCq_trans (keepsCq_setReq _ _ _)
                (keepsCq_trans (keepsCq_setReq _ _ _)
                  (keepsCq_trans (keepsCq_setTracker _ _ _)
                    (keepsCq_submit_tracker _ _)))))
        · split
          · split
            · exact keepsCq_trans h0 (keepsCq_trans (keepsCq_listMove _ _ _)
                (keepsCq_trans (keepsCq_setReq _ _ _) (hmc _ _ _ _ _ _)))
            · exact keepsCq_trans h0 (keepsCq_trans (keepsCq_listMove _ _ _)
                (keepsCq_trans (keepsCq_setReq _ _ _)
                  (keepsCq_trans (keepsCq_setReq _ _ _)
                    (keepsCq_trans (keepsCq_setTracker _ _ _)
                      (keepsCq_submit_tracker _ _)))))
          · split
            · exact keepsCq_trans h0 (keepsCq_trans (keepsCq_listMove _ _ _)
                (keepsCq_trans (keepsCq_setReq _ _ _) (hmc _ _ _ _ _ _)))
            · exact keepsCq_trans h0 (keepsCq_trans (keepsCq_listMove _ _ _)
                (keepsCq_trans (keepsCq_setReq _ _ _)
                  (keepsCq_trans (keepsCq_setReq _ _ _)
                    (keepsCq_trans (keepsCq_setTracker _ _ _)
                      (keepsCq_submit_tracker _ _)))))

/-- The whole mutually recursive completion/submit/enable cluster keeps the
CQ fields, for every fuel value. -/
theorem keepsCq_mutual (env : NvmeEnv) : ∀ fuel : Nat,
    (∀ st cpl p, KeepsCq st (nvme_pcie_qpair_complete_tracker env fuel st cpl p)) ∧
    (∀ st cid sct sc dnr p,
      KeepsCq st (nvme_pcie_qpair_manual_complete_tracker env fuel st cid sct sc dnr p)) ∧
    (∀ st cids dnr, KeepsCq st (nvme_pcie_qpair_abort_trackers_go env fuel st cids dnr)) ∧
    (∀ st, KeepsCq st (nvme_pcie_qpair_enable_m env fuel st)) ∧
    (∀ st, KeepsCq st (nvme_pcie_qpair_check_enabled env fuel st).1) ∧
    (∀ st req, KeepsCq st (nvme_pcie_qpair_submit_request env fuel st req).1) := by
  intro fuel
  induction fuel with
  | zero =>
    refine ⟨fun st cpl p => ?_, fun st cid sct sc dnr p => ?_,
            fun st cids dnr => ?_, fun st => ?_, fun st => ?_, fun st req => ?_⟩
    · rw [nvme_pcie_qpair_complete_tracker]; exact keepsCq_refl st
    · rw [nvme_pcie_qpair_manual_complete_tracker]; exact keepsCq_refl st
    · rw [nvme_pcie_qpair_abort_trackers_go.eq_def]; exact keepsCq_refl st
    · rw [nvme_pcie_qpair_enable_m]; exact keepsCq_refl st
    · rw [nvme_pcie_qpair_check_enabled]; exact keepsCq_refl st
    · rw [nvme_pcie_qpair_submit_request]; exact keepsCq_refl st
  | succ fuel ih =>
    obtain ⟨ihc, ihm, iha, ihe, ihk, ihs⟩ := ih
    have hc : ∀ st cpl p,
        KeepsCq st (nvme_pcie_qpair_complete_tracker env (fuel + 1) st cpl p) := by
      intro st cpl p
      rw [nvme_pcie_qpair_complete_tracker]
      exact keepsCq_completeCore env _ (fun s r => ihs s r) st cpl p
    have hm : ∀ st cid sct sc dnr p,
        KeepsCq st (nvme_pcie_qpair_manual_complete_tracker env (fuel + 1) st cid sct sc dnr p) := by
      intro st cid sct sc dnr p
      rw [nvme_pcie_qpair_manual_complete_tracker]
      exact ihc st _ p
    have ha : ∀ st cids dnr,
        KeepsCq st (nvme_pcie_qpair_abort_trackers_go env (fuel + 1) st cids dnr) := by
      intro st cids dnr
      rw [nvme_pcie_qpair_abort_trackers_go.eq_def]
      cases cids with
      | nil => exact keepsCq_refl st
      | cons cid rest => exact keepsCq_trans (ihm st cid _ _ dnr true) (iha _ rest dnr)
    have he : ∀ st, KeepsCq st (nvme_pcie_qpair_enable_m env (fuel + 1) st) := by
      intro st
      rw [nvme_pcie_qpair_enable_m]
      split
      · exact keepsCq_trans ⟨rfl, rfl, rfl, rfl, rfl, rfl⟩ (iha _ _ 0)
      · exact keepsCq_trans ⟨rfl, rfl, rfl, rfl, rfl, rfl⟩ (iha _ _ 1)
    have hk : ∀ st, KeepsCq st (nvme_pcie_qpair_check_enabled env (fuel + 1) st).1 := by
      intro st
      rw [nvme_pcie_qpair_check_enabled]
      split
      · exact ihe st
      · exact keepsCq_refl st
    have hs : ∀ st req,
        KeepsCq st (nvme_pcie_qpair_submit_request env (fuel + 1) st req).1 := by
      intro st req
      rw [nvme_pcie_qpair_submit_request]
      exact keepsCq_submitCore env _ _ (fun s => ihk s) (fun s c a b d p => ihm s c a b d p) st req
    exact ⟨hc, hm, ha, he, hk, hs⟩

/-- On an already enabled qpair, check_enabled is the identity and reports
true. -/
theorem check_enabled_of_enabled (env : NvmeEnv) (fuel : Nat)
    (st : PcieQpairSt) (h : st.is_enabled = true) :
    nvme_pcie_qpair_check_enabled env fuel st = (st, true) := by
  cases fuel with
  | zero => rw [nvme_pcie_qpair_check_enabled, h]
  | succ f =>
    rw [nvme_pcie_qpair_check_enabled, h]
    simp

/-- Unfolding of one matching iteration of the completion loop. -/
theorem poll_loop_succ_eq (env : NvmeEnv) (tf n : Nat) (st : PcieQpairSt)
    (c m : Nat) (hp : ¬((st.cpl_ring st.cq_head).p ≠ st.phase)) :
    nvme_pcie_qpair_poll_loop env tf (n + 1) st c m =
      (let st1 := if (st.trackers (st.cpl_ring st.cq_head).cid).active then
          nvme_pcie_qpair_complete_tracker env tf st (st.cpl_ring st.cq_head) true
        else st
       let hp2 := nvme_pcie_cq_advance st1.num_entries st1.cq_head st1.phase
       let st2 := { st1 with cq_head := hp2.1, phase := hp2.2 }
       if c + 1 = m then (st2, c + 1)
       else nvme_pcie_qpair_poll_loop env tf n st2 (c + 1) m) := by
  rw [nvme_pcie_qpair_poll_loop]
  simp only []
  rw [if_neg hp]

/-- The completion loop never writes the CQ doorbell, never changes the
ring size or queue id, and consumes between the starting count and
max_completions completions. -/
theorem poll_loop_props (env : NvmeEnv) (tf : Nat) :
    ∀ (ifuel : Nat) (st : PcieQpairSt) (c m : Nat),
      (nvme_pcie_qpair_poll_loop env tf ifuel st c m).1.num_entries = st.num_entries ∧
      (nvme_pcie_qpair_poll_loop env tf ifuel st c m).1.cq_dbl_log = st.cq_dbl_log ∧
      (nvme_pcie_qpair_poll_loop env tf ifuel st c m).1.id = st.id ∧
      (c < m → c ≤ (nvme_pcie_qpair_poll_loop env tf ifuel st c m).2 ∧
        (nvme_pcie_qpair_poll_loop env tf ifuel st c m).2 ≤ m) := by
  intro ifuel
  induction ifuel with
  | zero =>
    intro st c m
    rw [nvme_pcie_qpair_poll_loop]
    exact ⟨rfl, rfl, rfl, fun h => ⟨Nat.le_refl c, Nat.le_of_lt h⟩⟩
  | succ n ih =>
    intro st c m
    by_cases hp : (st.cpl_ring st.cq_head).p ≠ st.phase
    · rw [nvme_pcie_qpair_poll_loop]
      simp only []
      rw [if_pos hp]
      exact ⟨rfl, rfl, rfl, fun h => ⟨Nat.le_refl c, Nat.le_of_lt h⟩⟩
    · rw [poll_loop_succ_eq env tf n st c m hp]
      simp only []
      have hk : KeepsCq st (if (st.trackers (st.cpl_ring st.cq_head).cid).active then
          nvme_pcie_qpair_complete_tracker env tf st (st.cpl_ring st.cq_head) true
        else st) := by
        split
        · exact (keepsCq_mutual env tf).1 st _ true
        · exact keepsCq_refl st
      revert hk
      generalize (if (st.trackers (st.cpl_ring st.cq_head).cid).active then
          nvme_pcie_qpair_complete_tracker env tf st (st.cpl_ring st.cq_head) true
        else st) = st1
      intro hk
      by_cases hcm : c + 1 = m
      · rw [if_pos hcm]
        exact ⟨hk.1, hk.2.2.2.2.1, hk.2.2.2.2.2, fun h => ⟨by omega, by omega⟩⟩
      · rw [if_neg hcm]
        obtain ⟨e1, e2, e3, hcount⟩ := ih
          { st1 with
            cq_head := (nvme_pcie_cq_advance st1.num_entries st1.cq_head st1.phase).1,
            phase := (nvme_pcie_cq_advance st1.num_entries st1.cq_head st1.phase).2 }
          (c + 1) m
        refine ⟨e1.trans hk.1, e2.trans hk.2.2.2.2.1, e3.trans hk.2.2.2.2.2,
                fun h => ?_⟩
        have hlt : c + 1 < m := by omega
        obtain ⟨hlo, hhi⟩ := hcount hlt
        exact ⟨by omega, hhi⟩

/-- On an enabled qpair, process_completions is its clamped loop followed
by the conditional doorbell write and the admin pending drain. -/
theorem process_eq_of_enabled (env : NvmeEnv) (fuel : Nat) (st : PcieQpairSt)
    (maxc : Nat) (hen : st.is_enabled = true) :
    nvme_pcie_qpair_process_completions env fuel st maxc =
      (let maxc' := if maxc = 0 ∨ st.num_entries - 1 < maxc then
          st.num_entries - 1 else maxc
       let res := nvme_pcie_qpair_poll_loop env fuel maxc' st 0 maxc'
       let st1 := if 0 < res.2 then
          { res.1 with cq_dbl_log := res.1.cq_dbl_log ++ [res.1.cq_head] }
        else res.1
       let st2 := if st1.id = 0 then
          nvme_pcie_qpair_complete_pending_admin_request env st1
        else st1
       (st2, res.2)) := by
  unfold nvme_pcie_qpair_process_completions
  rw [check_enabled_of_enabled env fuel st hen]
  rfl

/-- Draining pending admin completions does not write the CQ doorbell. -/
theorem drain_cq_dbl_log (env : NvmeEnv) (st : PcieQpairSt) :
    (nvme_pcie_qpair_complete_pending_admin_request env st).cq_dbl_log =
      st.cq_dbl_log :=
  (keepsCq_drainPending env st).2.2.2.2.1

/-- Draining pending admin completions does not move the CQ head. -/
theorem drain_cq_head (env : NvmeEnv) (st : PcieQpairSt) :
    (nvme_pcie_qpair_complete_pending_admin_request env st).cq_head =
      st.cq_head :=
  (keepsCq_drainPending env st).2.1

/-- C7: a poll call on an enabled queue pair with max_completions 0 or
larger than N-1 consumes at most N-1 completions, and the CQ head doorbell
is MMIO-written, once and with the final cq_head value, exactly when at
least one completion was consumed. -/
theorem C7_poll_clamp_doorbell (env : NvmeEnv) (fuel : Nat) (st : PcieQpairSt)
    (maxc : Nat) (hen : st.is_enabled = true) (hN : 2 ≤ st.num_entries)
    (hm : maxc = 0 ∨ st.num_entries - 1 < maxc) :
    ∀ st' n, nvme_pcie_qpair_process_completions env fuel st maxc = (st', n) →
      n ≤ st.num_entries - 1 ∧
      st'.cq_dbl_log = (if 0 < n then st.cq_dbl_log ++ [st'.cq_head]
        else st.cq_dbl_log) := by
  intro st' n h
  rw [process_eq_of_enabled env fuel st maxc hen] at h
  simp only [] at h
  rw [if_pos hm] at h
  obtain ⟨hp1, hp2, hp3, hcount⟩ := poll_loop_props env fuel
    (st.num_entries - 1) st 0 (st.num_entries - 1)
  have h0m : 0 < st.num_entries - 1 := by omega
  obtain ⟨-, hle⟩ := hcount h0m
  injection h with h1 h2
  subst h1
  subst h2
  refine ⟨hle, ?_⟩
  by_cases hn : 0 <
      (nvme_pcie_qpair_poll_loop env fuel (st.num_entries - 1) st 0
        (st.num_entries - 1)).2
  · rw [if_pos hn, if_pos hn]
    split
    · rw [drain_cq_dbl_log, drain_cq_head]
      simp only []
      rw [hp2]
    · simp only []
      rw [hp2]
  · rw [if_neg hn, if_neg hn]
    split
    · rw [drain_cq_dbl_log]
      exact hp2
    · exact hp2

/-- Witness for C7: polling an enabled 2-entry qpair with max_completions 0
and no ready completion consumes 0 entries (at most N-1 = 1) and does not
write the CQ doorbell. -/
theorem C7_poll_clamp_doorbell_witness :
    (0 : Nat) ≤ testStPoll.num_entries - 1 ∧
    testStPoll.cq_dbl_log = (if 0 < 0 then testStPoll.cq_dbl_log ++ [testStPoll.cq_head]
      else testStPoll.cq_dbl_log) :=
  C7_poll_clamp_doorbell testEnv 1 testStPoll 0 rfl (by decide) (Or.inl rfl)
    testStPoll 0 rfl

/-- C10: when the completion entry at cq_head matches the expected phase
but names an inactive tracker, poll (here with max_completions = 1, on an
I/O queue) invokes no callback and leaves the trackers, the free and
outstanding lists and the queued requests unchanged, yet still advances
cq_head (with phase toggle on wrap), still counts the entry toward the
returned count and the max_completions limit, and still writes the CQ head
doorbell once with the final cq_head at the end of the call. -/
theorem C10_inactive_entry (env : NvmeEnv) (fuel : Nat) (st : PcieQpairSt)
    (hen : st.is_enabled = true) (hN : 2 ≤ st.num_entries) (hio : st.id ≠ 0)
    (hphase : (st.cpl_ring st.cq_head).p = st.phase)
    (hinactive : (st.trackers (st.cpl_ring st.cq_head).cid).active = false) :
    ∀ st' n, nvme_pcie_qpair_process_completions env fuel st 1 = (st', n) →
      n = 1 ∧ st'.trackers = st.trackers ∧ st'.free_tr = st.free_tr ∧
      st'.outstanding_tr = st.outstanding_tr ∧ st'.cb_log = st.cb_log ∧
      st'.queued_req = st.queued_req ∧
      st'.cq_head = (nvme_pcie_cq_advance st.num_entries st.cq_head st.phase).1 ∧
      st'.phase = (nvme_pcie_cq_advance st.num_entries st.cq_head st.phase).2 ∧
      st'.cq_dbl_log = st.cq_dbl_log ++ [st'.cq_head] := by
  intro st' n h
  have hp : ¬((st.cpl_ring st.cq_head).p ≠ st.phase) := fun hne => hne hphase
  have hcond : ¬((st.trackers (st.cpl_ring st.cq_head).cid).active = true) := by
    rw [hinactive]
    exact Bool.false_ne_true
  have hres : nvme_pcie_qpair_poll_loop env fuel 1 st 0 1 =
      ({ st with
         cq_head := (nvme_pcie_cq_advance st.num_entries st.cq_head st.phase).1,
         phase := (nvme_pcie_cq_advance st.num_entries st.cq_head st.phase).2 }, 1) := by
    rw [poll_loop_succ_eq env fuel 0 st 0 1 hp]
    simp only []
    rw [if_neg hcond]
    simp
  rw [process_eq_of_enabled env fuel st 1 hen] at h
  simp only [] at h
  rw [if_neg (by omega : ¬((1 : Nat) = 0 ∨ st.num_entries - 1 < 1))] at h
  rw [hres] at h
  simp only [] at h
  rw [if_pos (by norm_num : (0 : Nat) < 1)] at h
  rw [if_neg (hio : ¬(st.id = 0))] at h
  injection h with h1 h2
  subst h1
  subst h2
  exact ⟨rfl, rfl, rfl, rfl, rfl, rfl, rfl, rfl, rfl⟩

/-- Witness for C10: a concrete enabled I/O qpair whose first CQ entry
matches the phase but names inactive tracker 0: poll returns 1, invokes no
callback, leaves the lists untouched and writes the doorbell with the new
head 1. -/
theorem C10_inactive_entry_witness :
    (nvme_pcie_qpair_process_completions testEnv 3 testStInactive 1).2 = 1 ∧
    (nvme_pcie_qpair_process_completions testEnv 3 testStInactive 1).1.cb_log =
      testStInactive.cb_log ∧
    (nvme_pcie_qpair_process_completions testEnv 3 testStInactive 1).1.outstanding_tr =
      testStInactive.outstanding_tr ∧
    (nvme_pcie_qpair_process_completions testEnv 3 testStInactive 1).1.cq_dbl_log =
      testStInactive.cq_dbl_log ++
        [(nvme_pcie_qpair_process_completions testEnv 3 testStInactive 1).1.cq_head] := by
  have h := C10_inactive_entry testEnv 3 testStInactive rfl (by decide) (by decide)
    rfl rfl (nvme_pcie_qpair_process_completions testEnv 3 testStInactive 1).1
    (nvme_pcie_qpair_process_completions testEnv 3 testStInactive 1).2 rfl
  exact ⟨h.1, h.2.2.2.2.1, h.2.2.2.1, h.2.2.2.2.2.2.2.2⟩

/-- Transport of the tracker partition along a state whose lists and
trackers agree. -/
theorem part_listsEq {T : Nat} {st st' : PcieQpairSt}
    (h : TrackerPartition T st) (hf : st'.free_tr = st.free_tr)
    (ho : st'.outstanding_tr = st.outstanding_tr)
    (ht : st'.trackers = st.trackers) : TrackerPartition T st' := by
  obtain ⟨h1, h2⟩ := h
  refine ⟨?_, ?_⟩
  · rw [hf, ho]; exact h1
  · rw [ht]; exact h2

/-- Every member of the free list is a valid tracker id. -/
theorem part_free_lt {T : Nat} {st : PcieQpairSt} (h : TrackerPartition T st) :
    ∀ c ∈ st.free_tr, c < T := by
  intro c hc
  exact List.mem_range.mp (h.1.mem_iff.mp (List.mem_append.mpr (Or.inl hc)))

/-- Every member of the outstanding list is a valid tracker id. -/
theorem part_outst_lt {T : Nat} {st : PcieQpairSt} (h : TrackerPartition T st) :
    ∀ c ∈ st.outstanding_tr, c < T := by
  intro c hc
  exact List.mem_range.mp (h.1.mem_iff.mp (List.mem_append.mpr (Or.inr hc)))

/-- Replacing a tracker by one with the same active flag preserves the
partition. -/
theorem part_setTracker_preserve {T : Nat} (st : PcieQpairSt) (cid : Nat)
    (tr : NvmeTracker) (h : TrackerPartition T st)
    (htr : tr.active = (st.trackers cid).active) :
    TrackerPartition T (setTracker st cid tr) := by
  obtain ⟨h1, h2⟩ := h
  refine ⟨h1, fun c hc => ?_⟩
  by_cases hcc : c = cid
  · subst hcc
    have he : (setTracker st c tr).trackers c = tr := by simp [setTracker]
    rw [he] at hc
    exact h2 c (by rw [← htr]; exact hc)
  · have he : (setTracker st cid tr).trackers c = st.trackers c := by
      simp [setTracker, hcc]
    rw [he] at hc
    exact h2 c hc

/-- Clearing an active flag preserves the partition. -/
theorem part_setActive_false {T : Nat} (st : PcieQpairSt) (cid : Nat)
    (h : TrackerPartition T st) : TrackerPartition T (setActive st cid false) := by
  obtain ⟨h1, h2⟩ := h
  refine ⟨h1, fun c hc => ?_⟩
  by_cases hcc : c = cid
  · subst hcc
    simp [setActive, setTracker] at hc
  · simp [setActive, setTracker, hcc] at hc
    exact h2 c hc

/-- Setting the active flag of a valid tracker id preserves the
partition. -/
theorem part_setActive_true {T : Nat} (st : PcieQpairSt) (cid : Nat)
    (h : TrackerPartition T st) (hcid : cid < T) :
    TrackerPartition T (setActive st cid true) := by
  obtain ⟨h1, h2⟩ := h
  refine ⟨h1, fun c hc => ?_⟩
  by_cases hcc : c = cid
  · subst hcc; exact hcid
  · simp [setActive, setTracker, hcc] at hc
    exact h2 c hc

/-- Writing the req field preserves the partition. -/
theorem part_setReq {T : Nat} (st : PcieQpairSt) (cid : Nat)
    (r : Option NvmeRequest) (h : TrackerPartition T st) :
    TrackerPartition T (setReq st cid r) :=
  part_setTracker_preserve st cid _ h rfl

/-- Removing a valid id from both lists and pushing it onto the free list
preserves the permutation with range T. -/
theorem perm_erase_cons {T : Nat} (free outst : List Nat) (cid : Nat)
    (hperm : (free ++ outst).Perm (List.range T)) (hcid : cid < T) :
    ((cid :: free.erase cid) ++ outst.erase cid).Perm (List.range T) := by
  have hnd : (free ++ outst).Nodup := hperm.symm.nodup (List.nodup_range T)
  have hmem : cid ∈ free ++ outst :=
    hperm.mem_iff.mpr (List.mem_range.mpr hcid)
  have hdisj : List.Disjoint free outst := (List.nodup_append.mp hnd).2.2
  rcases List.mem_append.mp hmem with hf | ho
  · have hno : cid ∉ outst := fun hc => hdisj hf hc
    rw [List.erase_of_not_mem hno]
    have h1 : free.Perm (cid :: free.erase cid) := List.perm_cons_erase hf
    exact (h1.append_right outst).symm.trans hperm
  · have hnf : cid ∉ free := fun hc => hdisj hc ho
    rw [List.erase_of_not_mem hnf]
    have h1 : outst.Perm (cid :: outst.erase cid) := List.perm_cons_erase ho
    have h2 := h1.append_left free
    have h3 : (free ++ cid :: outst.erase cid).Perm
        (cid :: (free ++ outst.erase cid)) := List.perm_middle
    exact h3.symm.trans (h2.symm.trans hperm)

/-- Releasing a valid tracker id to the free list preserves the
partition. -/
theorem part_toFree {T : Nat} (st : PcieQpairSt) (cid : Nat)
    (h : TrackerPartition T st) (hcid : cid < T) :
    TrackerPartition T (trackerToFreeList st cid) := by
  obtain ⟨h1, h2⟩ := h
  exact ⟨perm_erase_cons st.free_tr st.outstanding_tr cid h1 hcid, h2⟩

/-- Submitting a tracker with a valid id preserves the partition. -/
theorem part_submit_tracker {T : Nat} (st : PcieQpairSt) (cid : Nat)
    (h : TrackerPartition T st) (hcid : cid < T) :
    TrackerPartition T (nvme_pcie_qpair_submit_tracker st cid) := by
  unfold nvme_pcie_qpair_submit_tracker
  split
  · exact h
  · exact part_listsEq (part_setActive_true st cid h hcid) rfl rfl rfl

/-- Parking a cross-process admin request preserves the partition. -/
theorem part_insertPending {T : Nat} (st : PcieQpairSt) (req : NvmeRequest)
    (cpl : NvmeCpl) (h : TrackerPartition T st) :
    TrackerPartition T (nvme_pcie_qpair_insert_pending_admin_request st req cpl) :=
  part_listsEq h rfl rfl rfl

/-- Draining pending admin completions preserves the partition. -/
theorem part_drainPending {T : Nat} (env : NvmeEnv) (st : PcieQpairSt)
    (h : TrackerPartition T st) :
    TrackerPartition T (nvme_pcie_qpair_complete_pending_admin_request env st) := by
  unfold nvme_pcie_qpair_complete_pending_admin_request
  split
  · exact h
  · exact part_listsEq h rfl rfl rfl

/-- The tail of the complete-tracker body preserves the partition whenever
the queued resubmission does, for a valid tracker id. -/
theorem part_complete_finish {T : Nat} (env : NvmeEnv)
    (sq : PcieQpairSt → NvmeRequest → PcieQpairSt)
    (hsq : ∀ s r, TrackerPartition T s → TrackerPartition T (sq s r))
    (mid : PcieQpairSt) (c : Nat) (hmid : TrackerPartition T mid) (hc : c < T) :
    TrackerPartition T
      (let s3 := setReq mid c none
       let s4 := trackerToFreeList s3 c
       if env.is_resetting then s4
       else
         match s4.queued_req with
         | [] => s4
         | q :: rest => sq { s4 with queued_req := rest } q) := by
  have h4 : TrackerPartition T (trackerToFreeList (setReq mid c none) c) :=
    part_toFree _ _ (part_setReq _ _ _ hmid) hc
  simp only []
  split
  · exact h4
  · split
    · exact h4
    · exact hsq _ _ (part_listsEq h4 rfl rfl rfl)

/-- The complete-tracker body preserves the partition, for a completion
naming a valid tracker id, whenever the queued resubmission does. -/
theorem part_completeCore {T : Nat} (env : NvmeEnv)
    (sq : PcieQpairSt → NvmeRequest → PcieQpairSt)
    (hsq : ∀ s r, TrackerPartition T s → TrackerPartition T (sq s r))
    (st : PcieQpairSt) (cpl : NvmeCpl) (p : Bool)
    (h : TrackerPartition T st) (hcid : cpl.cid < T) :
    TrackerPartition T (nvme_pcie_complete_tracker_core env sq st cpl p) := by
  unfold nvme_pcie_complete_tracker_core
  split
  · exact h
  · simp only []
    split
    · exact part_submit_tracker _ cpl.cid
        (part_setReq _ _ _ (part_setActive_false _ _ h)) hcid
    · refine part_complete_finish env sq hsq _ cpl.cid ?_ hcid
      split
      · split
        · exact part_insertPending _ _ _ (part_setActive_false _ _ h)
        · exact part_listsEq (part_setActive_false st cpl.cid h) rfl rfl rfl
      · exact part_setActive_false _ _ h

/-- The submit-request body preserves the partition whenever its
check-enabled and manual-complete callees do. -/
theorem part_submitCore {T : Nat} (env : NvmeEnv)
    (ce : PcieQpairSt → PcieQpairSt × Bool)
    (mc : PcieQpairSt → Nat → Nat → Nat → Nat → Bool → PcieQpairSt)
    (hce : ∀ s, TrackerPartition T s → TrackerPartition T (ce s).1)
    (hmc : ∀ s c a b d p, TrackerPartition T s → c < T →
      TrackerPartition T (mc s c a b d p))
    (st : PcieQpairSt) (req : NvmeRequest) (h : TrackerPartition T st) :
    TrackerPartition T (nvme_pcie_submit_request_core env ce mc st req).1 := by
  unfold nvme_pcie_submit_request_core
  simp only []
  have h0 := hce st h
  split
  · exact part_listsEq h0 rfl rfl rfl
  · rename_i cid restFree heq
    split
    · exact part_listsEq h0 rfl rfl rfl
    · have hcid : cid < T :=
        part_free_lt h0 cid (by rw [heq]; exact List.mem_cons_self _ _)
      have hmv : TrackerPartition T
          { (ce st).1 with free_tr := restFree, outstanding_tr := cid :: (ce st).1.outstanding_tr } := by
        obtain ⟨h1, h2⟩ := h0
        rw [heq] at h1
        exact ⟨List.perm_middle.trans h1, h2⟩
      split
      · exact part_submit_tracker _ _ (part_setReq _ _ _ hmv) hcid
      · split
        · split
          · exact hmc _ _ _ _ _ _ (part_setReq _ _ _ hmv) hcid
          · exact part_submit_tracker _ _
              (part_setTracker_preserve _ _ _
                (part_setReq _ _ _ (part_setReq _ _ _ hmv)) rfl) hcid
        · split
          · split
            · exact hmc _ _ _ _ _ _ (part_setReq _ _ _ hmv) hcid
            · exact part_submit_tracker _ _
                (part_setTracker_preserve _ _ _
                  (part_setReq _ _ _ (part_setReq _ _ _ hmv)) rfl) hcid
          · split
            · exact hmc _ _ _ _ _ _ (part_setReq _ _ _ hmv) hcid
            · exact part_submit_tracker _ _
                (part_setTracker_preserve _ _ _
                  (part_setReq _ _ _ (part_setReq _ _ _ hmv)) rfl) hcid

/-- The whole mutually recursive completion/submit/enable cluster preserves
the tracker partition, for every fuel value. -/
theorem part_mutual {T : Nat} (env : NvmeEnv) : ∀ fuel : Nat,
    (∀ st cpl p, TrackerPartition T st → cpl.cid < T →
      TrackerPartition T (nvme_pcie_qpair_complete_tracker env fuel st cpl p)) ∧
    (∀ st cid sct sc dnr p, TrackerPartition T st → cid < T →
      TrackerPartition T
        (nvme_pcie_qpair_manual_complete_tracker env fuel st cid sct sc dnr p)) ∧
    (∀ st cids dnr, TrackerPartition T st → (∀ c ∈ cids, c < T) →
      TrackerPartition T (nvme_pcie_qpair_abort_trackers_go env fuel st cids dnr)) ∧
    (∀ st, TrackerPartition T st →
      TrackerPartition T (nvme_pcie_qpair_enable_m env fuel st)) ∧
    (∀ st, TrackerPartition T st →
      TrackerPartition T (nvme_pcie_qpair_check_enabled env fuel st).1) ∧
    (∀ st req, TrackerPartition T st →
      TrackerPartition T (nvme_pcie_qpair_submit_request env fuel st req).1) := by
  intro fuel
  induction fuel with
  | zero =>
    refine ⟨fun st cpl p h _ => ?_, fun st cid sct sc dnr p h _ => ?_,
            fun st cids dnr h _ => ?_, fun st h => ?_, fun st h => ?_,
            fun st req h => ?_⟩
    · rw [nvme_pcie_qpair_complete_tracker]; exact h
    · rw [nvme_pcie_qpair_manual_complete_tracker]; exact h
    · rw [nvme_pcie_qpair_abort_trackers_go.eq_def]; exact h
    · rw [nvme_pcie_qpair_enable_m]; exact h
    · rw [nvme_pcie_qpair_check_enabled]; exact h
    · rw [nvme_pcie_qpair_submit_request]; exact h
  | succ fuel ih =>
    obtain ⟨ihc, ihm, iha, ihe, ihk, ihs⟩ := ih
    have hc : ∀ st cpl p, TrackerPartition T st → cpl.cid < T →
        TrackerPartition T (nvme_pcie_qpair_complete_tracker env (fuel + 1) st cpl p) := by
      intro st cpl p h hcid
      rw [nvme_pcie_qpair_complete_tracker]
      exact part_completeCore env _ (fun s r hs => ihs s r hs) st cpl p h hcid
    have hm : ∀ st cid sct sc dnr p, TrackerPartition T st → cid < T →
        TrackerPartition T
          (nvme_pcie_qpair_manual_complete_tracker env (fuel + 1) st cid sct sc dnr p) := by
      intro st cid sct sc dnr p h hcid
      rw [nvme_pcie_qpair_manual_complete_tracker]
      exact ihc st _ p h hcid
    have ha : ∀ st cids dnr, TrackerPartition T st → (∀ c ∈ cids, c < T) →
        TrackerPartition T (nvme_pcie_qpair_abort_trackers_go env (fuel + 1) st cids dnr) := by
      intro st cids dnr h hlt
      rw [nvme_pcie_qpair_abort_trackers_go.eq_def]
      cases cids with
      | nil => exact h
      | cons cid rest =>
        exact iha _ rest dnr
          (ihm st cid _ _ dnr true h (hlt cid (List.mem_cons_self _ _)))
          (fun c hc => hlt c (List.mem_cons_of_mem _ hc))
    have he : ∀ st, TrackerPartition T st →
        TrackerPartition T (nvme_pcie_qpair_enable_m env (fuel + 1) st) := by
      intro st h
      rw [nvme_pcie_qpair_enable_m]
      have hset : TrackerPartition T
          ({ st with is_enabled := true } : PcieQpairSt) :=
        part_listsEq h rfl rfl rfl
      split
      · exact iha _ _ 0 hset (part_outst_lt hset)
      · exact iha _ _ 1 hset (part_outst_lt hset)
    have hk : ∀ st, TrackerPartition T st →
        TrackerPartition T (nvme_pcie_qpair_check_enabled env (fuel + 1) st).1 := by
      intro st h
      rw [nvme_pcie_qpair_check_enabled]
      split
      · exact ihe st h
      · exact h
    have hs : ∀ st req, TrackerPartition T st →
        TrackerPartition T (nvme_pcie_qpair_submit_request env (fuel + 1) st req).1 := by
      intro st req h
      rw [nvme_pcie_qpair_submit_request]
      exact part_submitCore env _ _ (fun s hs => ihk s hs)
        (fun s c a b d p hs hlt => ihm s c a b d p hs hlt) st req h
    exact ⟨hc, hm, ha, he, hk, hs⟩

/-- The completion loop preserves the tracker partition. -/
theorem part_poll_loop {T : Nat} (env : NvmeEnv) (tf : Nat) :
    ∀ (ifuel : Nat) (st : PcieQpairSt) (c m : Nat), TrackerPartition T st →
      TrackerPartition T (nvme_pcie_qpair_poll_loop env tf ifuel st c m).1 := by
  intro ifuel
  induction ifuel with
  | zero =>
    intro st c m h
    rw [nvme_pcie_qpair_poll_loop]
    exact h
  | succ n ih =>
    intro st c m h
    by_cases hp : (st.cpl_ring st.cq_head).p ≠ st.phase
    · rw [nvme_pcie_qpair_poll_loop]
      simp only []
      rw [if_pos hp]
      exact h
    · rw [poll_loop_succ_eq env tf n st c m hp]
      simp only []
      have hk : TrackerPartition T
          (if (st.trackers (st.cpl_ring st.cq_head).cid).active then
            nvme_pcie_qpair_complete_tracker env tf st (st.cpl_ring st.cq_head) true
          else st) := by
        split
        · rename_i hact
          exact (part_mutual env tf).1 st _ true h (h.2 _ hact)
        · exact h
      revert hk
      generalize (if (st.trackers (st.cpl_ring st.cq_head).cid).active then
          nvme_pcie_qpair_complete_tracker env tf st (st.cpl_ring st.cq_head) true
        else st) = st1
      intro hk
      by_cases hcm : c + 1 = m
      · rw [if_pos hcm]
        exact part_listsEq hk rfl rfl rfl
      · rw [if_neg hcm]
        exact ih _ (c + 1) m (part_listsEq hk rfl rfl rfl)

/-- process_completions preserves the tracker partition. -/
theorem part_process (T : Nat) (env : NvmeEnv) (fuel : Nat) (st : PcieQpairSt)
    (maxc : Nat) (h : TrackerPartition T st) :
    TrackerPartition T (nvme_pcie_qpair_process_completions env fuel st maxc).1 := by
  unfold nvme_pcie_qpair_process_completions
  simp only []
  split
  · exact (part_mutual env fuel).2.2.2.2.1 st h
  · have h1 : TrackerPartition T
        (nvme_pcie_qpair_check_enabled env fuel st).1 :=
      (part_mutual env fuel).2.2.2.2.1 st h
    generalize (if maxc = 0 ∨
        (nvme_pcie_qpair_check_enabled env fuel st).1.num_entries - 1 < maxc then
        (nvme_pcie_qpair_check_enabled env fuel st).1.num_entries - 1
      else maxc) = mm
    have h2 : TrackerPartition T
        (nvme_pcie_qpair_poll_loop env fuel mm
          (nvme_pcie_qpair_check_enabled env fuel st).1 0 mm).1 :=
      part_poll_loop env fuel mm _ 0 mm h1
    split
    · split
      · exact part_drainPending env _ (part_listsEq h2 rfl rfl rfl)
      · exact part_listsEq h2 rfl rfl rfl
    · split
      · exact part_drainPending env _ h2
      · exact h2

/-- Each queue pair operation preserves the tracker partition. -/
theorem part_step (T : Nat) (env : NvmeEnv) (fuel : Nat) (st : PcieQpairSt)
    (op : NvmeOp) (h : TrackerPartition T st) :
    TrackerPartition T (nvme_pcie_qpair_step env fuel st op) := by
  cases op with
  | submitOp req =>
    simp only [nvme_pcie_qpair_step]
    exact (part_mutual env fuel).2.2.2.2.2 st req h
  | pollOp maxc =>
    simp only [nvme_pcie_qpair_step]
    exact part_process T env fuel st maxc h
  | abortOp dnr =>
    simp only [nvme_pcie_qpair_step, nvme_pcie_qpair_abort_trackers]
    exact (part_mutual env fuel).2.2.1 st st.outstanding_tr dnr h (part_outst_lt h)

/-- The freshly constructed queue pair satisfies the tracker partition. -/
theorem part_construct (id num_entries num_trackers tr_phys_base : Nat) :
    TrackerPartition num_trackers
      (nvme_pcie_qpair_construct id num_entries num_trackers tr_phys_base) := by
  constructor
  · show ((List.range num_trackers).reverse ++ []).Perm (List.range num_trackers)
    rw [List.append_nil]
    exact List.reverse_perm _
  · intro c hc
    by_cases hcT : c < num_trackers
    · exact hcT
    · exfalso
      have he : (nvme_pcie_qpair_construct id num_entries num_trackers
          tr_phys_base).trackers c = default := by
        simp [nvme_pcie_qpair_construct, nvme_pcie_qpair_reset, hcT]
      rw [he] at hc
      simp [default] at hc

/-- C9, amended: in every state reachable from construction by any sequence
of submit, poll and abort operations (completion happens inside poll), at
most num_trackers trackers are simultaneously on the outstanding list. -/
theorem C9_outstanding_le_trackers (env : NvmeEnv) (fuel : Nat)
    (id num_entries num_trackers tr_phys_base : Nat) (ops : List NvmeOp) :
    (nvme_pcie_qpair_run env fuel
      (nvme_pcie_qpair_construct id num_entries num_trackers tr_phys_base)
      ops).outstanding_tr.length ≤ num_trackers := by
  have hrun : ∀ (l : List NvmeOp) (st : PcieQpairSt),
      TrackerPartition num_trackers st →
      TrackerPartition num_trackers (nvme_pcie_qpair_run env fuel st l) := by
    intro l
    induction l with
    | nil => intro st h; exact h
    | cons op rest ih =>
      intro st h
      exact ih _ (part_step num_trackers env fuel st op h)
  have hP := hrun ops _ (part_construct id num_entries num_trackers tr_phys_base)
  have hlen := hP.1.length_eq
  rw [List.length_append, List.length_range] at hlen
  omega

/-- C9, counterexample to the claim as stated: on a queue pair with
num_trackers = 1 (as arises for an I/O queue of depth 2), a single
successful null-payload submit reaches a state with 1 tracker outstanding,
exceeding the claimed bound num_trackers - 1 = 0. -/
theorem C9_counterexample :
    (nvme_pcie_qpair_run testEnv 5 (nvme_pcie_qpair_construct 1 2 1 0)
      [NvmeOp.submitOp testReq]).outstanding_tr.length = 1 ∧
    ¬((nvme_pcie_qpair_run testEnv 5 (nvme_pcie_qpair_construct 1 2 1 0)
      [NvmeOp.submitOp testReq]).outstanding_tr.length ≤ 1 - 1) := by
  refine ⟨rfl, ?_⟩
  have h1 : (nvme_pcie_qpair_run testEnv 5 (nvme_pcie_qpair_construct 1 2 1 0)
      [NvmeOp.submitOp testReq]).outstanding_tr.length = 1 := rfl
  rw [h1]
  decide
